import Mathlib

/-!
Shallow embedding of the easy-solana Rust library.

Conventions of the embedding:
* Rust byte slices (`&[u8]`, `Vec<u8>`) are `List Nat` with every element < 256.
* Rust `u64`/`u32`/`u8` values are `Nat`; wrap-around casts are written with
  explicit `% 2 ^ w`.
* Rust `f64` quantities (SOL balances, prices) are modelled as exact rationals
  `Rat`; the claims settled against them concern values that are exact in both
  readings.
* Fallible Rust functions returning `Result<T, E>` become `Except E T`.
* The RPC client is modelled as the function `Pubkey → Option RawAccount`
  describing what each account lookup returns (`None` = account does not
  exist); transport failures are outside the model.
-/

/-- A Solana public key: a list of 32 bytes. -/
abbrev Pubkey := List Nat

/-- Little-endian value of a byte list. -/
def leNat : List Nat → Nat
  | [] => 0
  | b :: t => b + 256 * leNat t

/-- Little-endian encoding of `n` into exactly `k` bytes (as in `u64::to_le_bytes`). -/
def leBytes : Nat → Nat → List Nat
  | 0, _ => []
  | k + 1, n => n % 256 :: leBytes k (n / 256)

/-- Big-endian minimal byte encoding (empty list for zero); `fuel` bounds the length. -/
def beBytesFuel : Nat → Nat → List Nat
  | 0, _ => []
  | fuel + 1, n => if n = 0 then [] else beBytesFuel fuel (n / 256) ++ [n % 256]

/-- The base58 alphabet used by the `bs58` crate. -/
def b58Alphabet : List Char :=
  String.toList ("123456789ABCDEFGHJKLMNPQRSTUVWXYZabcdefghijkmnopqrstuvwxyz")

/-- Index of a character in the base58 alphabet, if valid. -/
def b58Digit (c : Char) : Option Nat :=
  let i := b58Alphabet.indexOf c
  if i < 58 then some i else none

/-- Base-58 value of a character list (most significant first). -/
def b58Value : List Char → Nat → Option Nat
  | [], acc => some acc
  | c :: t, acc =>
    match b58Digit c with
    | none => none
    | some d => b58Value t (acc * 58 + d)

/-- Number of leading `1` characters (each encodes a leading zero byte). -/
def b58LeadingOnes : List Char → Nat
  | [] => 0
  | c :: t => if c = '1' then b58LeadingOnes t + 1 else 0

/-- Embedding of `bs58::decode`: leading `1`s become zero bytes, the rest is the big-endian
value of the whole string read in base 58. -/
def b58Decode (s : String) : Option (List Nat) :=
  (b58Value s.toList 0).map
    (fun v => List.replicate (b58LeadingOnes s.toList) 0 ++ beBytesFuel 64 v)

/-- Errors of `Pubkey::from_str` (`solana_sdk::pubkey::ParsePubkeyError`). -/
inductive ParsePubkeyErr where
  | wrongSize
  | invalid
deriving DecidableEq, Repr

/-- Embedding of `Pubkey::from_str`: at most 44 characters, base58-decodes, and the decoded
byte string must be exactly 32 bytes long. -/
def pubkey_from_str (s : String) : Except ParsePubkeyErr Pubkey :=
  if s.length > 44 then .error .wrongSize
  else
    match b58Decode s with
    | none => .error .invalid
    | some bytes => if bytes.length = 32 then .ok bytes else .error .wrongSize

/-- Embedding of `utils::address_to_pubkey`: just `address.parse::<Pubkey>()`. -/
def address_to_pubkey (address : String) : Except ParsePubkeyErr Pubkey :=
  pubkey_from_str address

/-- Embedding of `utils::addresses_to_pubkeys`: parse each address, silently dropping the
entries that fail to parse. -/
def addresses_to_pubkeys (addresses : List String) : List Pubkey :=
  addresses.filterMap (fun addr => (pubkey_from_str addr).toOption)

/-- Helper for the constant tables of `constants.rs`: decode a known-good
base58 program id. -/
def pubkeyOfBase58 (s : String) : Pubkey :=
  match pubkey_from_str s with
  | .ok k => k
  | .error _ => []

/-- Embedding of `solana_programs::metadata_program`. -/
def metadata_program : Pubkey :=
  pubkeyOfBase58 ("metaqbxxUerdq28cj1RbAWkYQm3ybzjb6a8bt518x1s")

/-- Embedding of `solana_programs::system_program`. -/
def system_program : Pubkey :=
  pubkeyOfBase58 ("11111111111111111111111111111111")

/-- Embedding of `solana_programs::token_program`. -/
def token_program : Pubkey :=
  pubkeyOfBase58 ("TokenkegQfeZyiNwAJbNbGKPFXCWuBvf9Ss623VQ5DA")

/-- Embedding of `solana_programs::associated_token_account_program`. -/
def associated_token_account_program : Pubkey :=
  pubkeyOfBase58 ("ATokenGPvbdGVxr1b2hvZbsiqW5xWH25efTNsLJA8knL")

/-- Embedding of `solana_programs::rent_program`. -/
def rent_program : Pubkey :=
  pubkeyOfBase58 ("SysvarRent111111111111111111111111111111111")

/-- Embedding of `pumpfun_accounts::pumpfun_program`. -/
def pumpfun_program : Pubkey :=
  pubkeyOfBase58 ("6EF8rrecthR5Dkzon8Nwu78hRvfCKubJ14M5uBEwF6P")

/-- Embedding of `pumpfun_accounts::pumpfun_fee_account`. -/
def pumpfun_fee_account : Pubkey :=
  pubkeyOfBase58 ("CebN5WGQ4jvEPvsVU4EoHEpgzq1VV7AbicfhtW4xC9iM")

/-- Embedding of `pumpfun_accounts::pumpfun_global_account`. -/
def pumpfun_global_account : Pubkey :=
  pubkeyOfBase58 ("4wTV1YmiEkRvAtNtsSGPtUrqRYQMe5SKy2uB4Jjaxnjf")

/-- Embedding of `pumpfun_accounts::pumpfun_event_authority_account`. -/
def pumpfun_event_authority_account : Pubkey :=
  pubkeyOfBase58 ("Ce6TQqeHC9p8KetsN6JsjHK7UTZk7nasjjnr7XxXp9F1")

/-- Embedding of `pumpfun_accounts::buy_instruction_data`: the fixed 8-byte buy discriminator. -/
def buy_instruction_data : List Nat :=
  [0x66, 0x06, 0x3d, 0x12, 0x01, 0xda, 0xeb, 0xea]

/-- Embedding of `pumpfun_accounts::sell_instruction_data`: the fixed 8-byte sell discriminator. -/
def sell_instruction_data : List Nat :=
  [0x33, 0xe6, 0x85, 0xa4, 0x01, 0x7f, 0x83, 0xad]

/-- Embedding of `PUMP_TOKEN_DECIMALS` (and `PUMP_CURVE_TOKEN_DECIMALS`): 6. -/
def PUMP_TOKEN_DECIMALS : Nat := 6

/-- Embedding of `solana_sdk::native_token::LAMPORTS_PER_SOL`. -/
def LAMPORTS_PER_SOL : Nat := 1000000000

/-- Base-256 (big-endian) value of a byte list. -/
def beNat (bytes : List Nat) : Nat :=
  bytes.foldl (fun acc b => acc * 256 + b) 0

/-- Number of leading zero bytes. -/
def countLeadingZeroBytes : List Nat → Nat
  | [] => 0
  | b :: t => if b = 0 then countLeadingZeroBytes t + 1 else 0

/-- Base-58 digits (big-endian) of a value; `fuel` bounds the length. -/
def b58EncodeVal : Nat → Nat → List Char
  | 0, _ => []
  | fuel + 1, n =>
    if n = 0 then [] else b58EncodeVal fuel (n / 58) ++ [b58Alphabet.getD (n % 58) '1']

/-- Embedding of `bs58::encode`: leading zero bytes become `1`s, the rest is the value in base 58. -/
def b58Encode (bytes : List Nat) : String :=
  String.mk (List.replicate (countLeadingZeroBytes bytes) '1' ++ b58EncodeVal 64 (beNat bytes))

/-- Embedding of `Pubkey::to_string` (base58 display form). -/
def pubkeyToString (p : Pubkey) : String :=
  b58Encode p

/-- Slice `len` bytes starting at offset `off`. -/
def byteSlice (d : List Nat) (off len : Nat) : List Nat :=
  (d.drop off).take len

/-- Errors raised by the `program_pack` decoders (`ProgramError`). -/
inductive ProgErr where
  | invalidAccountData
  | notInit
deriving DecidableEq, Repr

/-- Embedding of `spl_token` `unpack_coption_key`: 4-byte tag (`[0,0,0,0]` = none,
`[1,0,0,0]` = some) followed by a 32-byte key. -/
def unpackCOptionKey (b : List Nat) : Except ProgErr (Option Pubkey) :=
  if b.take 4 = [0, 0, 0, 0] then .ok none
  else if b.take 4 = [1, 0, 0, 0] then .ok (some (b.drop 4))
  else .error .invalidAccountData

/-- Embedding of `spl_token` `unpack_coption_u64`: 4-byte tag followed by a little-endian u64. -/
def unpackCOptionU64 (b : List Nat) : Except ProgErr (Option Nat) :=
  if b.take 4 = [0, 0, 0, 0] then .ok none
  else if b.take 4 = [1, 0, 0, 0] then .ok (some (leNat (b.drop 4)))
  else .error .invalidAccountData

/-- Embedding of `spl_token::state::Mint`. -/
structure SplMintAccount where
  mint_authority : Option Pubkey
  supply : Nat
  decimals : Nat
  is_init : Bool
  freeze_authority : Option Pubkey
deriving DecidableEq, Repr

/-- Token account state (`spl_token::state::AccountState`). -/
inductive AccountState where
  | uninit
  | inited
  | frozen
deriving DecidableEq, Repr

/-- Embedding of `spl_token::state::Account`. -/
structure SplTokenAccount where
  mint : Pubkey
  owner : Pubkey
  amount : Nat
  delegate : Option Pubkey
  state : AccountState
  is_native : Option Nat
  delegated_amount : Nat
  close_authority : Option Pubkey
deriving DecidableEq, Repr

/-- Embedding of `Mint::unpack_from_slice` over the fixed 82-byte layout
`[36 mint_authority | 8 supply | 1 decimals | 1 flag | 36 freeze_authority]`. -/
def splMintUnpackFromSlice (d : List Nat) : Except ProgErr SplMintAccount := do
  let mint_authority ← unpackCOptionKey (byteSlice d 0 36)
  let supply := leNat (byteSlice d 36 8)
  let decimals := d.getD 44 0
  let is_init ←
    match d.getD 45 0 with
    | 0 => Except.ok false
    | 1 => Except.ok true
    | _ => Except.error .invalidAccountData
  let freeze_authority ← unpackCOptionKey (byteSlice d 46 36)
  Except.ok { mint_authority, supply, decimals, is_init, freeze_authority }

/-- Embedding of `Mint::unpack` (`Pack::unpack`): exact length 82, decode, and the
structure must be flagged as having been initialized. -/
def splMintUnpack (d : List Nat) : Except ProgErr SplMintAccount := do
  if d.length ≠ 82 then Except.error .invalidAccountData
  else
    let m ← splMintUnpackFromSlice d
    if m.is_init then Except.ok m else Except.error .notInit

/-- Embedding of `Account::unpack_from_slice` over the fixed 165-byte layout
`[32 mint | 32 owner | 8 amount | 36 delegate | 1 state | 12 is_native | 8 delegated | 36 close]`. -/
def splTokenUnpackFromSlice (d : List Nat) : Except ProgErr SplTokenAccount := do
  let mint := byteSlice d 0 32
  let owner := byteSlice d 32 32
  let amount := leNat (byteSlice d 64 8)
  let delegate ← unpackCOptionKey (byteSlice d 72 36)
  let state ←
    match d.getD 108 0 with
    | 0 => Except.ok AccountState.uninit
    | 1 => Except.ok AccountState.inited
    | 2 => Except.ok AccountState.frozen
    | _ => Except.error .invalidAccountData
  let is_native ← unpackCOptionU64 (byteSlice d 109 12)
  let delegated_amount := leNat (byteSlice d 121 8)
  let close_authority ← unpackCOptionKey (byteSlice d 129 36)
  Except.ok { mint, owner, amount, delegate, state, is_native, delegated_amount, close_authority }

/-- Embedding of `Account::unpack` (`Pack::unpack`): exact length 165, decode, and the
account state must not be the zero (not-yet-created) state. -/
def splTokenUnpack (d : List Nat) : Except ProgErr SplTokenAccount := do
  if d.length ≠ 165 then Except.error .invalidAccountData
  else
    let t ← splTokenUnpackFromSlice d
    if t.state = AccountState.uninit then Except.error .notInit else Except.ok t

/-- Is `b` a UTF-8 continuation byte (`0x80..=0xBF`)? -/
def isContByte (b : Nat) : Bool :=
  decide (0x80 ≤ b ∧ b ≤ 0xBF)

/-- UTF-8 well-formedness of a byte list (the check done by Rust
`String::from_utf8`), with explicit fuel for structural recursion. -/
def validUtf8Fuel : Nat → List Nat → Bool
  | 0, l => l.isEmpty
  | _ + 1, [] => true
  | fuel + 1, b :: t =>
    if b ≤ 0x7F then validUtf8Fuel fuel t
    else if 0xC2 ≤ b ∧ b ≤ 0xDF then
      match t with
      | b2 :: t2 => isContByte b2 && validUtf8Fuel fuel t2
      | _ => false
    else if b = 0xE0 then
      match t with
      | b2 :: b3 :: t3 =>
        decide (0xA0 ≤ b2 ∧ b2 ≤ 0xBF) && isContByte b3 && validUtf8Fuel fuel t3
      | _ => false
    else if (0xE1 ≤ b ∧ b ≤ 0xEC) ∨ b = 0xEE ∨ b = 0xEF then
      match t with
      | b2 :: b3 :: t3 => isContByte b2 && isContByte b3 && validUtf8Fuel fuel t3
      | _ => false
    else if b = 0xED then
      match t with
      | b2 :: b3 :: t3 =>
        decide (0x80 ≤ b2 ∧ b2 ≤ 0x9F) && isContByte b3 && validUtf8Fuel fuel t3
      | _ => false
    else if b = 0xF0 then
      match t with
      | b2 :: b3 :: b4 :: t4 =>
        decide (0x90 ≤ b2 ∧ b2 ≤ 0xBF) && isContByte b3 && isContByte b4 &&
          validUtf8Fuel fuel t4
      | _ => false
    else if 0xF1 ≤ b ∧ b ≤ 0xF3 then
      match t with
      | b2 :: b3 :: b4 :: t4 =>
        isContByte b2 && isContByte b3 && isContByte b4 && validUtf8Fuel fuel t4
      | _ => false
    else if b = 0xF4 then
      match t with
      | b2 :: b3 :: b4 :: t4 =>
        decide (0x80 ≤ b2 ∧ b2 ≤ 0x8F) && isContByte b3 && isContByte b4 &&
          validUtf8Fuel fuel t4
      | _ => false
    else false

/-- UTF-8 well-formedness of a byte list. -/
def validUtf8 (l : List Nat) : Bool :=
  validUtf8Fuel l.length l

/-- Borsh reader: one byte. -/
def readByte : List Nat → Option (Nat × List Nat)
  | [] => none
  | b :: t => some (b, t)

/-- Borsh reader: exactly `n` bytes. -/
def readBytesN : Nat → List Nat → Option (List Nat × List Nat)
  | 0, d => some ([], d)
  | _ + 1, [] => none
  | n + 1, b :: t => (readBytesN n t).map (fun p => (b :: p.1, p.2))

/-- Borsh reader: a `bool` (one byte, `0` or `1`, anything else is malformed). -/
def readBool (d : List Nat) : Option (Bool × List Nat) :=
  match readByte d with
  | some (0, r) => some (false, r)
  | some (1, r) => some (true, r)
  | _ => none

/-- Borsh reader: a little-endian `u32`. -/
def readU32 (d : List Nat) : Option (Nat × List Nat) :=
  (readBytesN 4 d).map (fun p => (leNat p.1, p.2))

/-- Borsh reader: a little-endian `u64`. -/
def readU64 (d : List Nat) : Option (Nat × List Nat) :=
  (readBytesN 8 d).map (fun p => (leNat p.1, p.2))

/-- Borsh reader: a `String` (u32 length prefix, then that many bytes, which
must be valid UTF-8). The string is kept as its UTF-8 bytes. -/
def readBorshString (d : List Nat) : Option (List Nat × List Nat) := do
  let (len, d) ← readU32 d
  let (bytes, d) ← readBytesN len d
  if validUtf8 bytes then some (bytes, d) else none

/-- The `Metadata` display fields of `metadata.rs` (strings as UTF-8 bytes). -/
structure Metadata where
  name : List Nat
  symbol : List Nat
  uri : List Nat
deriving DecidableEq, Repr

/-- Embedding of `metadata.rs::MetadataAccount` (Borsh layout). -/
structure MetadataAccount where
  key : Nat
  update_authority : Pubkey
  mint : Pubkey
  data : Metadata
  primary_sale_happened : Bool
  is_mutable : Bool
deriving DecidableEq, Repr

/-- Embedding of `MetadataAccount::deserialize` (Borsh; trailing bytes are permitted). -/
def metadataDeserialize (d : List Nat) : Option MetadataAccount := do
  let (key, d) ← readByte d
  let (update_authority, d) ← readBytesN 32 d
  let (mint, d) ← readBytesN 32 d
  let (name, d) ← readBorshString d
  let (symbol, d) ← readBorshString d
  let (uri, d) ← readBorshString d
  let (primary_sale_happened, d) ← readBool d
  let (is_mutable, _) ← readBool d
  some { key, update_authority, mint,
         data := { name, symbol, uri }, primary_sale_happened, is_mutable }

/-- Rust `s.trim_end_matches('\0')`: drop every trailing NUL. On valid UTF-8
the NUL character occupies exactly the single byte `0`. -/
def trimTrailingNul (l : List Nat) : List Nat :=
  (l.reverse.dropWhile (fun b => b == 0)).reverse

/-- The padding trim applied to a decoded metadata account by both
`get_metadata_of_token` and `get_metadata_of_tokens`. -/
def trimMetadata (m : MetadataAccount) : MetadataAccount :=
  { m with data := { name := trimTrailingNul m.data.name,
                     symbol := trimTrailingNul m.data.symbol,
                     uri := trimTrailingNul m.data.uri } }

/-- Rotate a 32-bit word right by `k`. -/
def rotr32 (x k : Nat) : Nat :=
  ((x >>> k) ||| (x <<< (32 - k))) % 2 ^ 32

/-- Bitwise complement on 32-bit words. -/
def not32 (x : Nat) : Nat :=
  0xFFFFFFFF ^^^ x

/-- SHA-256 `Ch`. -/
def shaCh (x y z : Nat) : Nat :=
  (x &&& y) ^^^ (not32 x &&& z)

/-- SHA-256 `Maj`. -/
def shaMaj (x y z : Nat) : Nat :=
  (x &&& y) ^^^ (x &&& z) ^^^ (y &&& z)

/-- SHA-256 `Σ0`. -/
def shaBigS0 (x : Nat) : Nat :=
  rotr32 x 2 ^^^ rotr32 x 13 ^^^ rotr32 x 22

/-- SHA-256 `Σ1`. -/
def shaBigS1 (x : Nat) : Nat :=
  rotr32 x 6 ^^^ rotr32 x 11 ^^^ rotr32 x 25

/-- SHA-256 `σ0`. -/
def shaSmallS0 (x : Nat) : Nat :=
  rotr32 x 7 ^^^ rotr32 x 18 ^^^ (x >>> 3)

/-- SHA-256 `σ1`. -/
def shaSmallS1 (x : Nat) : Nat :=
  rotr32 x 17 ^^^ rotr32 x 19 ^^^ (x >>> 10)

/-- The SHA-256 round constants. -/
def sha256K : List Nat :=
  [1116352408, 1899447441, 3049323471, 3921009573, 961987163,
   1508970993, 2453635748, 2870763221, 3624381080, 310598401,
   607225278, 1426881987, 1925078388, 2162078206, 2614888103,
   3248222580, 3835390401, 4022224774, 264347078, 604807628,
   770255983, 1249150122, 1555081692, 1996064986, 2554220882,
   2821834349, 2952996808, 3210313671, 3336571891, 3584528711,
   113926993, 338241895, 666307205, 773529912, 1294757372,
   1396182291, 1695183700, 1986661051, 2177026350, 2456956037,
   2730485921, 2820302411, 3259730800, 3345764771, 3516065817,
   3600352804, 4094571909, 275423344, 430227734, 506948616,
   659060556, 883997877, 958139571, 1322822218, 1537002063,
   1747873779, 1955562222, 2024104815, 2227730452, 2361852424,
   2428436474, 2756734187, 3204031479, 3329325298]

/-- The SHA-256 initial state. -/
def sha256H0 : List Nat :=
  [1779033703, 3144134277, 1013904242, 2773480762, 1359893119,
   2600822924, 528734635, 1541459225]

/-- SHA-256 message padding. -/
def sha256Pad (msg : List Nat) : List Nat :=
  let L := msg.length
  let padZeros := (120 - (L + 1) % 64) % 64
  msg ++ [0x80] ++ List.replicate padZeros 0 ++ (leBytes 8 (8 * L)).reverse

/-- Split into 64-byte blocks (`fuel` bounds the number of steps). -/
def toBlocks : Nat → List Nat → List (List Nat)
  | 0, _ => []
  | _ + 1, [] => []
  | fuel + 1, d => d.take 64 :: toBlocks fuel (d.drop 64)

/-- Group bytes into big-endian 32-bit words. -/
def toWordsBE : Nat → List Nat → List Nat
  | 0, _ => []
  | _ + 1, [] => []
  | fuel + 1, d => beNat (d.take 4) :: toWordsBE fuel (d.drop 4)

/-- Extend the 16 block words by 48 schedule steps; the accumulator holds the
words most recent first. -/
def schedRev : Nat → List Nat → List Nat
  | 0, ws => ws
  | fuel + 1, ws =>
    let nw := (shaSmallS1 (ws.getD 1 0) + ws.getD 6 0 +
               shaSmallS0 (ws.getD 14 0) + ws.getD 15 0) % 2 ^ 32
    schedRev fuel (nw :: ws)

/-- The 64-entry message schedule of a block. -/
def shaSchedule (block : List Nat) : List Nat :=
  (schedRev 48 (toWordsBE 16 block).reverse).reverse

/-- One SHA-256 compression round; the state is the 8 working variables. -/
def shaRound (st : List Nat) (kw : Nat × Nat) : List Nat :=
  let a := st.getD 0 0
  let b := st.getD 1 0
  let c := st.getD 2 0
  let d := st.getD 3 0
  let e := st.getD 4 0
  let f := st.getD 5 0
  let g := st.getD 6 0
  let h := st.getD 7 0
  let t1 := (h + shaBigS1 e + shaCh e f g + kw.1 + kw.2) % 2 ^ 32
  let t2 := (shaBigS0 a + shaMaj a b c) % 2 ^ 32
  [(t1 + t2) % 2 ^ 32, a, b, c, (d + t1) % 2 ^ 32, e, f, g]

/-- Compress one 64-byte block into the hash state. -/
def shaCompress (h : List Nat) (block : List Nat) : List Nat :=
  let st := ((sha256K.zip (shaSchedule block)).foldl shaRound h)
  (h.zip st).map (fun p => (p.1 + p.2) % 2 ^ 32)

/-- SHA-256 of a byte list, as 32 bytes. -/
def sha256 (msg : List Nat) : List Nat :=
  let padded := sha256Pad msg
  let blocks := toBlocks (padded.length) padded
  (blocks.foldl shaCompress sha256H0).foldr
    (fun wrd acc => (leBytes 4 wrd).reverse ++ acc) []

/-- The ed25519 base field modulus `2^255 - 19`. -/
def ed25519P : Nat := 2 ^ 255 - 19

/-- The ed25519 curve constant `d`. -/
def ed25519D : Nat :=
  37095705934669439343138083508754565189542113879843219016388785533085940283555

/-- Modular exponentiation by binary recursion on the exponent (`fuel` bounds
the number of halvings). -/
def powModFuel : Nat → Nat → Nat → Nat → Nat
  | 0, _, _, m => 1 % m
  | fuel + 1, b, e, m =>
    if e = 0 then 1 % m
    else
      let r := powModFuel fuel ((b * b) % m) (e / 2) m
      if e % 2 = 1 then (r * b) % m else r

/-- The `was_square` result of curve25519-dalek `FieldElement::sqrt_ratio_i`:
with `r = u·v³·(u·v⁷)^((p-5)/8)` and `check = v·r²`, the ratio `u/v` is a
square exactly when `check = u` or `check = -u`. -/
def sqrtRatioWasSquare (u v : Nat) : Bool :=
  let p := ed25519P
  let r := (u * powModFuel 300 v 3 p % p *
            powModFuel 300 ((u * powModFuel 300 v 7 p) % p) ((p - 5) / 8) p) % p
  let check := (v * r % p * r) % p
  (check == u % p) || (check == (p - u % p) % p)

/-- Embedding of `CompressedEdwardsY::decompress` succeeds: interpret the 32 bytes as the
little-endian `y` with the top bit masked off, and test whether
`(y²-1)/(d·y²+1)` is a square in the field. -/
def bytesAreCurvePoint (bs : List Nat) : Bool :=
  let p := ed25519P
  let y := leNat bs % 2 ^ 255 % p
  let u := (y * y % p + p - 1) % p
  let v := (ed25519D * y % p * y + 1) % p
  sqrtRatioWasSquare u v

/-- The PDA domain separator `b"ProgramDerivedAddress"`. -/
def PDA_MARKER : List Nat :=
  [80, 114, 111, 103, 114, 97, 109, 68, 101, 114, 105, 118, 101, 100, 65,
   100, 100, 114, 101, 115, 115]

/-- Embedding of `Pubkey::create_program_address`: hash the seeds, the program id and the
marker; fail if the digest is a valid curve point. -/
def create_program_address (seeds : List (List Nat)) (program_id : Pubkey) :
    Option Pubkey :=
  let h := sha256 (seeds.foldr (fun s acc => s ++ acc) [] ++ program_id ++ PDA_MARKER)
  if bytesAreCurvePoint h then none else some h

/-- Try bump seeds `fuel-1, fuel-2, …, 0`. -/
def findFromBump : Nat → List (List Nat) → Pubkey → Option (Pubkey × Nat)
  | 0, _, _ => none
  | b + 1, seeds, pid =>
    match create_program_address (seeds ++ [[b]]) pid with
    | some k => some (k, b)
    | none => findFromBump b seeds pid

/-- Embedding of `Pubkey::find_program_address`: first bump in `255, 254, …, 0` whose
derived address falls off the curve. -/
def find_program_address (seeds : List (List Nat)) (pid : Pubkey) :
    Option (Pubkey × Nat) :=
  findFromBump 256 seeds pid

/-- Embedding of `derive_associated_token_account_address` from
`read_transactions/associated_token_account.rs`. The Rust function panics (in
`find_program_address`) if no bump yields an off-curve address; that
unreachable branch is mapped to `.error .invalid` here. -/
def derive_associated_token_account_address
    (wallet_address mint_address : String) (tokProg : Pubkey) :
    Except ParsePubkeyErr String :=
  let pubkeys := addresses_to_pubkeys [wallet_address, mint_address]
  if pubkeys.length ≠ 2 then .error .invalid
  else
    match find_program_address
        [pubkeys.getD 0 [], tokProg, pubkeys.getD 1 []]
        associated_token_account_program with
    | some kb => .ok (pubkeyToString kb.1)
    | none => .error .invalid

/-- Decidable equality for `Except`. -/
instance {ε α : Type} [DecidableEq ε] [DecidableEq α] : DecidableEq (Except ε α) :=
  fun a b =>
    match a, b with
    | .error e1, .error e2 =>
      if h : e1 = e2 then .isTrue (by rw [h]) else .isFalse (by simp [h])
    | .error _, .ok _ => .isFalse (by simp)
    | .ok _, .error _ => .isFalse (by simp)
    | .ok v1, .ok v2 =>
      if h : v1 = v2 then .isTrue (by rw [h]) else .isFalse (by simp [h])

/-- Embedding of `error.rs::ReadTransactionError`. -/
inductive ReadTransactionError where
  | InvalidAddress (e : ParsePubkeyErr)
  | RpcError (msg : String)
  | RpcForUserError (msg : String)
  | DeserializeError
  | AccountNotFound
  | BondingCurveError
deriving DecidableEq, Repr

/-- A raw on-chain account as returned by the RPC client
(`solana_sdk::account::Account`). -/
structure RawAccount where
  lamports : Nat
  data : List Nat
  owner : Pubkey
  executable : Bool
  rent_epoch : Nat
deriving DecidableEq, Repr

/-- The RPC collaborator: what `get_account`/`get_multiple_accounts` return
for each key (`none` = the account does not exist on chain). -/
abbrev Rpc := Pubkey → Option RawAccount

/-- Embedding of `read_transactions/account.rs::AccountType`. -/
inductive AccountType where
  | wallet
  | associatedToken (d : SplTokenAccount)
  | mint (d : SplMintAccount)
  | metadata (d : MetadataAccount)
  | program
  | others
deriving DecidableEq, Repr

/-- Embedding of `read_transactions/account.rs::Account`. -/
structure Account where
  pubkey : String
  sol_balance : Rat
  account_type : AccountType
  data : List Nat
deriving DecidableEq, Repr

/-- The classification if-chain shared by `get_account` and
`get_multiple_accounts` in `read_transactions/account.rs`: executable, then
System-owned, then a Mint unpack probe, then a Token-Account unpack probe,
then a Metadata deserialize probe. (`get_account` calls each probe twice —
`is_ok` then `unpack` — with the same result; this is collapsed into one
`match`.) -/
def classifyAccountData (a : RawAccount) : AccountType :=
  if a.executable then .program
  else if a.owner = system_program then .wallet
  else
    match splMintUnpack a.data with
    | .ok mint_data => .mint mint_data
    | .error _ =>
      match splTokenUnpack a.data with
      | .ok associated_token_data => .associatedToken associated_token_data
      | .error _ =>
        match metadataDeserialize a.data with
        | some md => .metadata md
        | none => .others

/-- Embedding of `get_account`: parse the address, fetch the account, classify. A missing
account surfaces as the RPC client's `RpcError::ForUser("AccountNotFound:
pubkey=…")`, which `From<ClientError>` converts to `RpcForUserError`. -/
def get_account (rpc : Rpc) (address : String) :
    Except ReadTransactionError Account :=
  match address_to_pubkey address with
  | .error e => .error (.InvalidAddress e)
  | .ok pubkey =>
    match rpc pubkey with
    | none =>
      .error (.RpcForUserError ("AccountNotFound: pubkey=" ++ pubkeyToString pubkey))
    | some account =>
      .ok { pubkey := address,
            sol_balance := (account.lamports : Rat) / (LAMPORTS_PER_SOL : Rat),
            account_type := classifyAccountData account,
            data := account.data }

/-- The collection loop of `get_multiple_accounts`: any missing entry aborts
the whole batch with `AccountNotFound`. -/
def collectAccounts : List (Option RawAccount × Pubkey) →
    Except ReadTransactionError (List Account)
  | [] => .ok []
  | (none, _) :: _ => .error .AccountNotFound
  | (some account, pk) :: rest =>
    (collectAccounts rest).map
      (fun accs =>
        { pubkey := pubkeyToString pk,
          sol_balance := (account.lamports : Rat) / (LAMPORTS_PER_SOL : Rat),
          account_type := classifyAccountData account,
          data := account.data } :: accs)

/-- Embedding of `get_multiple_accounts` from `read_transactions/account.rs`. -/
def get_multiple_accounts (rpc : Rpc) (addresses : List String) :
    Except ReadTransactionError (List Account) :=
  let pubkeys := addresses_to_pubkeys addresses
  collectAccounts ((pubkeys.map rpc).zip pubkeys)

/-- The seed literal `b"metadata"`. -/
def METADATA_SEED : List Nat := [109, 101, 116, 97, 100, 97, 116, 97]

/-- Derive the metadata PDA of a mint, as both metadata readers do:
seeds `[b"metadata", metadata_program, mint]` under the metadata program. -/
def metadataPda (token_pubkey : Pubkey) : Option (Pubkey × Nat) :=
  find_program_address [METADATA_SEED, metadata_program, token_pubkey]
    metadata_program

/-- Core of `get_metadata_of_token` once the token address is parsed: derive
the PDA, fetch, Borsh-deserialize, trim the NUL padding. The unreachable
"no bump found" panic inside `find_program_address` is mapped to
`DeserializeError`. -/
def get_metadata_of_token_pk (rpc : Rpc) (token_pubkey : Pubkey) :
    Except ReadTransactionError MetadataAccount :=
  match metadataPda token_pubkey with
  | none => .error .DeserializeError
  | some mpk =>
    match rpc mpk.1 with
    | none =>
      .error (.RpcForUserError ("AccountNotFound: pubkey=" ++ pubkeyToString mpk.1))
    | some metadata_account =>
      match metadataDeserialize metadata_account.data with
      | none => .error .DeserializeError
      | some md => .ok (trimMetadata md)

/-- Embedding of `metadata.rs::get_metadata_of_token`. -/
def get_metadata_of_token (rpc : Rpc) (token_address : String) :
    Except ReadTransactionError MetadataAccount :=
  match address_to_pubkey token_address with
  | .error e => .error (.InvalidAddress e)
  | .ok pk => get_metadata_of_token_pk rpc pk

/-- Batch body of `get_metadata_of_tokens` on already-parsed mint pubkeys:
derive all PDAs, fetch them in one batch, and keep (deserialize + trim) only
the entries that exist and decode. -/
def get_metadata_of_tokens_pk (rpc : Rpc) (token_pubkeys : List Pubkey) :
    Except ReadTransactionError (List MetadataAccount) :=
  let pdas := token_pubkeys.map (fun pk => ((metadataPda pk).map Prod.fst).getD [])
  .ok ((pdas.map rpc).filterMap
    (fun o => o.bind (fun account => (metadataDeserialize account.data).map trimMetadata)))

/-- Embedding of `metadata.rs::get_metadata_of_tokens`. -/
def get_metadata_of_tokens (rpc : Rpc) (token_addresses : List String) :
    Except ReadTransactionError (List MetadataAccount) :=
  get_metadata_of_tokens_pk rpc (addresses_to_pubkeys token_addresses)

/-- Embedding of `reader/easy_solana_account.rs::AssociatedTokenAccountDetails`. -/
structure AssociatedTokenAccountDetails where
  mint_address : Pubkey
  token_balance : Nat
  owner : Pubkey
  state : AccountState
  close_authority : Option Pubkey
deriving DecidableEq, Repr

/-- Embedding of `reader/easy_solana_account.rs::MintAccountDetails` (strings as UTF-8 bytes). -/
structure MintAccountDetails where
  token_name : List Nat
  token_ticker : List Nat
  token_uri : List Nat
  supply : Nat
  decimals : Nat
  is_init : Bool
  freeze_authority : Option Pubkey
  mint_authority : Option Pubkey
deriving DecidableEq, Repr

/-- Embedding of `reader/easy_solana_account.rs::AccountType` (note: no Metadata variant). -/
inductive EasyAccountType where
  | program
  | wallet
  | associatedTokenAccount (d : AssociatedTokenAccountDetails)
  | mintAccount (d : MintAccountDetails)
  | others
deriving DecidableEq, Repr

/-- Embedding of `reader/easy_solana_account.rs::EasySolanaAccount`. -/
structure EasySolanaAccount where
  pubkey : Pubkey
  sol_balance : Rat
  owner : Pubkey
  executable : Bool
  rent_epoch : Nat
  data : List Nat
  account_type : EasyAccountType
deriving DecidableEq, Repr

/-- Embedding of `reader`-variant error type (`AccountReaderError`): only the RPC failure
shape matters to the embedded code paths. -/
inductive AccountReaderError where
  | clientError
deriving DecidableEq, Repr

/-- Details copied out of an unpacked SPL token account. -/
def mkAtaDetails (t : SplTokenAccount) : AssociatedTokenAccountDetails :=
  { mint_address := t.mint, token_balance := t.amount, owner := t.owner,
    state := t.state, close_authority := t.close_authority }

/-- Details copied out of an unpacked SPL mint, with the given display fields. -/
def mkMintDetails (name ticker uri : List Nat) (m : SplMintAccount) :
    MintAccountDetails :=
  { token_name := name, token_ticker := ticker, token_uri := uri,
    supply := m.supply, decimals := m.decimals, is_init := m.is_init,
    freeze_authority := m.freeze_authority, mint_authority := m.mint_authority }

/-- Classification used by the **batch** `get_easy_solana_accounts`: guarded by
`owner == token_program()`, Token-Account probe before Mint probe, display
fields left empty, and no Metadata case at all. -/
def classifyEasyData (a : RawAccount) : EasyAccountType :=
  if a.executable then .program
  else if a.owner = system_program then .wallet
  else if a.owner = token_program then
    match splTokenUnpack a.data with
    | .ok t => .associatedTokenAccount (mkAtaDetails t)
    | .error _ =>
      match splMintUnpack a.data with
      | .ok m => .mintAccount (mkMintDetails [] [] [] m)
      | .error _ => .others
  else .others

/-- Classification used by the **single** `get_easy_solana_account`: same
shape, but a successful Mint probe immediately fetches the token metadata
(empty display fields if that fails). -/
def classifyEasySingle (rpc : Rpc) (pubkey : Pubkey) (a : RawAccount) :
    EasyAccountType :=
  if a.executable then .program
  else if a.owner = system_program then .wallet
  else if a.owner = token_program then
    match splTokenUnpack a.data with
    | .ok t => .associatedTokenAccount (mkAtaDetails t)
    | .error _ =>
      match splMintUnpack a.data with
      | .ok m =>
        match get_metadata_of_token_pk rpc pubkey with
        | .ok md => .mintAccount (mkMintDetails md.data.name md.data.symbol md.data.uri m)
        | .error _ => .mintAccount (mkMintDetails [] [] [] m)
      | .error _ => .others
  else .others

/-- Embedding of `get_easy_solana_account`. -/
def get_easy_solana_account (rpc : Rpc) (pubkey : Pubkey) :
    Except AccountReaderError EasySolanaAccount :=
  match rpc pubkey with
  | none => .error .clientError
  | some account =>
    .ok { pubkey := pubkey,
          sol_balance := (account.lamports : Rat) / (LAMPORTS_PER_SOL : Rat),
          owner := account.owner,
          executable := account.executable,
          rent_epoch := account.rent_epoch,
          data := account.data,
          account_type := classifyEasySingle rpc pubkey account }

/-- Step 2 of `get_easy_solana_accounts`: parse the fetched options, silently
dropping entries that do not exist. -/
def easyAccountsOf (rpc : Rpc) (pubkeys : List Pubkey) : List EasySolanaAccount :=
  ((pubkeys.map rpc).zip pubkeys).filterMap
    (fun op =>
      op.1.map (fun account =>
        { pubkey := op.2,
          sol_balance := (account.lamports : Rat) / (LAMPORTS_PER_SOL : Rat),
          owner := account.owner,
          executable := account.executable,
          rent_epoch := account.rent_epoch,
          data := account.data,
          account_type := classifyEasyData account }))

/-- The metadata merge of step 3: `iter_mut().find(..)` updates the first
account whose pubkey equals the metadata's mint, if it is a mint account. -/
def mergeMetadataInto (md : MetadataAccount) :
    List EasySolanaAccount → List EasySolanaAccount
  | [] => []
  | a :: t =>
    if a.pubkey = md.mint then
      (match a.account_type with
       | .mintAccount details =>
         let d2 : MintAccountDetails :=
           { details with token_name := md.data.name,
                          token_ticker := md.data.symbol,
                          token_uri := md.data.uri }
         { a with account_type := EasyAccountType.mintAccount d2 }
       | _ => a) :: t
    else a :: mergeMetadataInto md t

/-- Embedding of `get_easy_solana_accounts`: batch fetch, silently dropping nonexistent
accounts, then one batched metadata lookup merged into the mint entries. -/
def get_easy_solana_accounts (rpc : Rpc) (pubkeys : List Pubkey) :
    Except AccountReaderError (List EasySolanaAccount) :=
  let easy_accounts := easyAccountsOf rpc pubkeys
  let mint_pubkeys := easy_accounts.filterMap
    (fun a => match a.account_type with
              | .mintAccount _ => some a.pubkey
              | _ => none)
  if mint_pubkeys.isEmpty then .ok easy_accounts
  else
    match get_metadata_of_tokens_pk rpc mint_pubkeys with
    | .error _ => .error .clientError
    | .ok metadata_accounts =>
      .ok (metadata_accounts.foldl (fun accs md => mergeMetadataInto md accs) easy_accounts)

/-- Embedding of `read_transactions/associated_token_account.rs::AssociatedTokenAccount`. -/
structure AssociatedTokenAccount where
  pubkey : String
  owner_pubkey : String
  mint_pubkey : String
  mint_supply : Nat
  mint_decimals : Nat
  token_amount : Nat
  token_ui_amount : Rat
  mint_authority : Option Pubkey
  token_program : String
deriving DecidableEq, Repr

/-- Embedding of `get_multiple_associated_token_accounts`: batch-fetch the token accounts,
keep the ones that exist and unpack; batch-fetch their mints, keep the ones
that exist and unpack; then pair the two filtered lists positionally. -/
def get_multiple_associated_token_accounts (rpc : Rpc)
    (associated_token_addresses : List String) :
    Except ReadTransactionError (List AssociatedTokenAccount) :=
  let associated_token_pubkeys := addresses_to_pubkeys associated_token_addresses
  if associated_token_pubkeys.isEmpty then
    .error (.InvalidAddress .invalid)
  else
    let fetched := associated_token_pubkeys.map rpc
    let token_accounts :=
      (associated_token_pubkeys.zip fetched).filterMap
        (fun po => po.2.bind (fun account =>
          (splTokenUnpack account.data).toOption.map (fun t => (po.1, t))))
    let mint_pubkeys := token_accounts.map (fun pt => pt.2.mint)
    let mint_accounts_data :=
      (mint_pubkeys.map rpc).filterMap
        (fun o => o.bind (fun account =>
          (splMintUnpack account.data).toOption.map (fun m => (m, account.owner))))
    .ok ((token_accounts.zip mint_accounts_data).map
      (fun ptm =>
        { pubkey := pubkeyToString ptm.1.1,
          owner_pubkey := pubkeyToString ptm.1.2.owner,
          mint_pubkey := pubkeyToString ptm.1.2.mint,
          mint_supply := ptm.2.1.supply,
          mint_decimals := ptm.2.1.decimals,
          token_amount := ptm.1.2.amount,
          token_ui_amount := (ptm.1.2.amount : Rat) / ((10 ^ ptm.2.1.decimals : Nat) : Rat),
          mint_authority := ptm.2.1.mint_authority,
          token_program := pubkeyToString ptm.2.2 }))

/-- Embedding of `pumpfun/bonding_curve.rs::BondingCurveAccount`. -/
structure BondingCurveAccount where
  unkown_value : Nat
  virtual_token_reserves : Nat
  virtual_sol_reserves : Nat
  real_token_reserves : Nat
  real_sol_reserves : Nat
  total_token_supply : Nat
  complete : Bool
deriving DecidableEq, Repr

/-- Borsh deserialization of a bonding curve account: six little-endian u64
fields and one bool (trailing bytes permitted). -/
def bondingCurveDeserialize (d : List Nat) : Option BondingCurveAccount := do
  let (unkown_value, d) ← readU64 d
  let (virtual_token_reserves, d) ← readU64 d
  let (virtual_sol_reserves, d) ← readU64 d
  let (real_token_reserves, d) ← readU64 d
  let (real_sol_reserves, d) ← readU64 d
  let (total_token_supply, d) ← readU64 d
  let (complete, _) ← readBool d
  some { unkown_value, virtual_token_reserves, virtual_sol_reserves,
         real_token_reserves, real_sol_reserves, total_token_supply, complete }

/-- Embedding of `calculate_token_price`: guard against zero virtual reserves, otherwise
`(virtual_sol / 10^9) / (virtual_token / 10^6)` (exact rationals standing for
the `f64` arithmetic). -/
def calculate_token_price (curve_state : BondingCurveAccount) :
    Except ReadTransactionError Rat :=
  if curve_state.virtual_token_reserves = 0 ∨ curve_state.virtual_sol_reserves = 0 then
    .error .BondingCurveError
  else
    let virtual_sol_reserves : Rat :=
      (curve_state.virtual_sol_reserves : Rat) / (LAMPORTS_PER_SOL : Rat)
    let virtual_token_reserves : Rat :=
      (curve_state.virtual_token_reserves : Rat) / ((10 ^ PUMP_TOKEN_DECIMALS : Nat) : Rat)
    .ok (virtual_sol_reserves / virtual_token_reserves)

/-- The seed literal `b"bonding-curve"`. -/
def BONDING_CURVE_SEED : List Nat :=
  [98, 111, 110, 100, 105, 110, 103, 45, 99, 117, 114, 118, 101]

/-- Embedding of `get_bonding_curve_address` (stringified PDA of the token under the
Pump.fun program). -/
def get_bonding_curve_address (token_address : String) :
    Except ReadTransactionError String :=
  match address_to_pubkey token_address with
  | .error e => .error (.InvalidAddress e)
  | .ok token_account =>
    match find_program_address [BONDING_CURVE_SEED, token_account] pumpfun_program with
    | some kb => .ok (pubkeyToString kb.1)
    | none => .error .DeserializeError

/-- Embedding of `get_bonding_curve_account`: derive the curve address, fetch and
Borsh-decode its state; any failure yields `none`. -/
def get_bonding_curve_account (rpc : Rpc) (token_address : String) :
    Option (Pubkey × BondingCurveAccount) := do
  let bonding_curve_address ← (get_bonding_curve_address token_address).toOption
  let bonding_curve_account ← (address_to_pubkey bonding_curve_address).toOption
  let account ← rpc bonding_curve_account
  let bonding_curve_data ← bondingCurveDeserialize account.data
  some (bonding_curve_account, bonding_curve_data)

/-- Embedding of `solana_program::instruction::AccountMeta`. -/
structure AccountMeta where
  pubkey : Pubkey
  is_signer : Bool
  is_writable : Bool
deriving DecidableEq, Repr

/-- Embedding of `AccountMeta::new` (writable). -/
def AccountMeta.newWritable (pk : Pubkey) (signer : Bool) : AccountMeta :=
  { pubkey := pk, is_signer := signer, is_writable := true }

/-- Embedding of `AccountMeta::new_readonly`. -/
def AccountMeta.newReadonly (pk : Pubkey) (signer : Bool) : AccountMeta :=
  { pubkey := pk, is_signer := signer, is_writable := false }

/-- Embedding of `solana_program::instruction::Instruction`. -/
structure Instruction where
  program_id : Pubkey
  accounts : List AccountMeta
  data : List Nat
deriving DecidableEq, Repr

/-- The compute-budget program id. -/
def compute_budget_program : Pubkey :=
  pubkeyOfBase58 ("ComputeBudget111111111111111111111111111111")

/-- Embedding of `ComputeBudgetInstruction::set_compute_unit_limit` (borsh: variant tag 2,
then the `u32` limit). -/
def set_compute_unit_limit (limit : Nat) : Instruction :=
  { program_id := compute_budget_program, accounts := [],
    data := 2 :: leBytes 4 (limit % 2 ^ 32) }

/-- Embedding of `ComputeBudgetInstruction::set_compute_unit_price` (borsh: variant tag 3,
then the `u64` micro-lamport price). -/
def set_compute_unit_price (units : Nat) : Instruction :=
  { program_id := compute_budget_program, accounts := [],
    data := 3 :: leBytes 8 (units % 2 ^ 64) }

/-- Embedding of `system_instruction::transfer` (bincode tag 2 as a little-endian u32,
then the `u64` lamports). -/
def system_transfer (from_pubkey to_pubkey : Pubkey) (lamports : Nat) : Instruction :=
  { program_id := system_program,
    accounts := [AccountMeta.newWritable from_pubkey true,
                 AccountMeta.newWritable to_pubkey false],
    data := leBytes 4 2 ++ leBytes 8 (lamports % 2 ^ 64) }

/-- A keypair is its 64 bytes (32 secret, 32 public); the signing key
derivation check of `Keypair::from_bytes` is external cryptography and is
not re-verified here. -/
abbrev Keypair := List Nat

/-- Embedding of `Keypair::pubkey()`: the trailing 32 bytes. -/
def keypairPubkey (k : Keypair) : Pubkey :=
  byteSlice k 32 32

/-- Embedding of `Keypair::from_base58_string` (panics on undecodable input in Rust;
defaulting to the empty list models only well-formed inputs). -/
def keypair_from_base58 (s : String) : Keypair :=
  (b58Decode s).getD []

/-- A built transaction: the message plus the keypairs handed to `sign`. -/
structure Transaction where
  fee_payer : Option Pubkey
  instructions : List Instruction
  recent_blockhash : Nat
  signers : List Keypair
deriving DecidableEq, Repr

/-- Embedding of `Transaction::new_with_payer` (unsigned, blockhash not yet set). -/
def Transaction.new_with_payer (instructions : List Instruction)
    (fee_payer : Option Pubkey) : Transaction :=
  { fee_payer, instructions, recent_blockhash := 0, signers := [] }

/-- Embedding of `Transaction::sign`: record the signing keypairs and the blockhash (the
ed25519 signatures themselves are external cryptography). -/
def Transaction.sign (t : Transaction) (keypairs : List Keypair)
    (blockhash : Nat) : Transaction :=
  { t with signers := keypairs, recent_blockhash := blockhash }

/-- Embedding of `error.rs::WriteTransactionError`; `panicked` stands for the
`.expect(…)` abort in `construct_bump_pump_token_transaction`, which is not
an error value in Rust but an abort of the whole call. -/
inductive WriteTransactionError where
  | InvalidAddress (e : ParsePubkeyErr)
  | QueryError (e : ReadTransactionError)
  | CreateTokenAccountError
  | DeleteTokenAccountError (msg : String)
  | RpcClientError
  | ProgramError
  | panicked
deriving DecidableEq, Repr

/-- Rust `f64::round` (half away from zero) on an exact rational. -/
def rustRound (q : Rat) : Int :=
  if 0 ≤ q then round q else -round (-q)

/-- Rust `as u64` on an `f64`: truncate toward zero, saturating at the ends. -/
def castF64ToU64 (q : Rat) : Nat :=
  if q ≤ 0 then 0
  else min q.floor.toNat (2 ^ 64 - 1)

/-- The buy-side account list of the Pump.fun bump transaction. -/
def bumpBuyAccounts (global_account fee_account token_account bonding_curve
    associated_bonding_curve associated_user user : Pubkey) : List AccountMeta :=
  [AccountMeta.newReadonly global_account false,
   AccountMeta.newWritable fee_account false,
   AccountMeta.newReadonly token_account false,
   AccountMeta.newWritable bonding_curve false,
   AccountMeta.newWritable associated_bonding_curve false,
   AccountMeta.newWritable associated_user false,
   AccountMeta.newWritable user true,
   AccountMeta.newReadonly system_program false,
   AccountMeta.newReadonly token_program false,
   AccountMeta.newReadonly rent_program false,
   AccountMeta.newReadonly pumpfun_event_authority_account false,
   AccountMeta.newReadonly pumpfun_program false]

/-- The sell-side account list of the Pump.fun bump transaction. -/
def bumpSellAccounts (global_account fee_account token_account bonding_curve
    associated_bonding_curve associated_user user : Pubkey) : List AccountMeta :=
  [AccountMeta.newReadonly global_account false,
   AccountMeta.newWritable fee_account false,
   AccountMeta.newReadonly token_account false,
   AccountMeta.newWritable bonding_curve false,
   AccountMeta.newWritable associated_bonding_curve false,
   AccountMeta.newWritable associated_user false,
   AccountMeta.newWritable user true,
   AccountMeta.newReadonly system_program false,
   AccountMeta.newReadonly associated_token_account_program false,
   AccountMeta.newReadonly token_program false,
   AccountMeta.newReadonly pumpfun_event_authority_account false,
   AccountMeta.newReadonly pumpfun_program false]

/-- Embedding of `pumpfun/bump.rs::construct_bump_pump_token_transaction`. `blockhash`
stands for `client.get_latest_blockhash()`; `max_sol_cost` is the `f64`
argument as an exact rational. -/
def construct_bump_pump_token_transaction (rpc : Rpc) (blockhash : Nat)
    (base58_keypair : String) (token_address : String) (max_sol_cost : Rat)
    (compute_limit compute_units : Nat) :
    Except WriteTransactionError Transaction := do
  let token_account ← (address_to_pubkey token_address).mapError .InvalidAddress
  let user_keypair := keypair_from_base58 base58_keypair
  let user_account := keypairPubkey user_keypair
  let associated_user_address ←
    (derive_associated_token_account_address (pubkeyToString user_account)
      (pubkeyToString token_account) token_program).mapError .InvalidAddress
  let associated_user_account ←
    (address_to_pubkey associated_user_address).mapError .InvalidAddress
  match get_bonding_curve_account rpc token_address with
  | none => .error .panicked
  | some bc =>
    let bonding_curve_account := bc.1
    let bonding_state := bc.2
    let associated_bonding_curve_address ←
      (derive_associated_token_account_address (pubkeyToString bonding_curve_account)
        (pubkeyToString token_account) token_program).mapError .InvalidAddress
    let associated_bonding_curve_account ←
      (address_to_pubkey associated_bonding_curve_address).mapError .InvalidAddress
    let cost_per_token ← (calculate_token_price bonding_state).mapError .QueryError
    let amount : Rat := (max_sol_cost / cost_per_token) * (4 / 5 : Rat)
    let multiplier : Nat := 10 ^ PUMP_TOKEN_DECIMALS
    let amount_in_decimals : Nat := castF64ToU64 (rustRound (amount * (multiplier : Rat)) : Rat)
    let max_sol_cost_in_lamports : Nat := castF64ToU64 (max_sol_cost * (LAMPORTS_PER_SOL : Rat))
    let buy_data := buy_instruction_data ++ leBytes 8 amount_in_decimals ++
      leBytes 8 max_sol_cost_in_lamports
    let sell_data := sell_instruction_data ++ leBytes 8 amount_in_decimals ++
      leBytes 8 0
    let buy : Instruction :=
      { program_id := pumpfun_program,
        accounts := bumpBuyAccounts pumpfun_global_account pumpfun_fee_account
          token_account bonding_curve_account associated_bonding_curve_account
          associated_user_account user_account,
        data := buy_data }
    let sell : Instruction :=
      { program_id := pumpfun_program,
        accounts := bumpSellAccounts pumpfun_global_account pumpfun_fee_account
          token_account bonding_curve_account associated_bonding_curve_account
          associated_user_account user_account,
        data := sell_data }
    let transaction := Transaction.new_with_payer
      [set_compute_unit_limit compute_limit, set_compute_unit_price compute_units,
       buy, sell] (some user_account)
    .ok (transaction.sign [user_keypair] blockhash)

/-- Embedding of `TransactionBuilderError` as used by `transaction_builder.rs`. -/
inductive TransactionBuilderError where
  | InvalidAddress (e : ParsePubkeyErr)
  | LatestBlockhashError
deriving DecidableEq, Repr

/-- Embedding of `transaction_builder.rs::TransactionBuilder` (the RPC client handle is
passed to `build` instead of being stored). -/
structure TransactionBuilder where
  payer_keypair : Keypair
  instructions : List Instruction
  signing_keypairs : List Keypair
deriving DecidableEq, Repr

/-- Embedding of `TransactionBuilder::new`. -/
def TransactionBuilder.new (payer_keypair : Keypair) : TransactionBuilder :=
  { payer_keypair, instructions := [], signing_keypairs := [] }

/-- Embedding of `TransactionBuilder::set_compute_limit`. -/
def TransactionBuilder.set_compute_limit (b : TransactionBuilder) (limit : Nat) :
    TransactionBuilder :=
  { b with instructions := b.instructions ++ [set_compute_unit_limit limit] }

/-- Embedding of `TransactionBuilder::set_compute_units`. -/
def TransactionBuilder.set_compute_units (b : TransactionBuilder) (units : Nat) :
    TransactionBuilder :=
  { b with instructions := b.instructions ++ [set_compute_unit_price units] }

/-- Embedding of `TransactionBuilder::transfer_sol`: push the transfer instruction and
collect `from_keypair` as an auxiliary signer when its key differs from the
payer's. No deduplication is performed. -/
def TransactionBuilder.transfer_sol (b : TransactionBuilder) (amount : Rat)
    (from_keypair : Keypair) (destination_address : String) :
    Except TransactionBuilderError TransactionBuilder :=
  match address_to_pubkey destination_address with
  | .error e => .error (.InvalidAddress e)
  | .ok destination_pubkey =>
    let lamports := castF64ToU64 (amount * (LAMPORTS_PER_SOL : Rat))
    let b := { b with instructions := b.instructions ++
      [system_transfer (keypairPubkey from_keypair) destination_pubkey lamports] }
    if keypairPubkey from_keypair ≠ keypairPubkey b.payer_keypair then
      .ok { b with signing_keypairs := b.signing_keypairs ++ [from_keypair] }
    else
      .ok b

/-- Embedding of `TransactionBuilder::build`: new transaction with the payer, fresh
blockhash, then sign with the payer followed by every collected auxiliary
keypair, in order and without deduplication. -/
def TransactionBuilder.build (b : TransactionBuilder) (blockhash : Nat) :
    Except TransactionBuilderError Transaction :=
  let transaction := Transaction.new_with_payer b.instructions
    (some (keypairPubkey b.payer_keypair))
  let all_keypairs := b.payer_keypair :: b.signing_keypairs
  .ok (transaction.sign all_keypairs blockhash)

/-- Embedding of `error.rs::SimulationError`. -/
inductive SimulationError where
  | RpcClientError
  | NoLogsAvailable
  | NoUnitsConsumedAvailable
  | NoInnerInstructionsAvailable
deriving DecidableEq, Repr

/-- A `serde_json::Value` one level deep: an object maps field names to
opaque value tokens. `parse_simulation_result` only ever inspects two object
levels, so deeper structure is abstracted to `Nat` tokens. -/
inductive JsonValue where
  | object (fields : List (String × Nat))
  | atom (t : Nat)
deriving DecidableEq, Repr

/-- A `serde_json::Value` two levels deep (the type of
`parsed_instruction.parsed`). -/
inductive JsonShallow where
  | jobject (fields : List (String × JsonValue))
  | jatom (t : Nat)
deriving DecidableEq, Repr

/-- Embedding of `UiInstruction`, flattened: `Compiled`, `Parsed(PartiallyDecoded)` and
`Parsed(Parsed)`; the payloads of the first two are never inspected. -/
inductive UiInstruction where
  | compiled (t : Nat)
  | parsedPartial (t : Nat)
  | parsedFull (program : String) (program_id : String) (parsed : JsonShallow)
deriving DecidableEq, Repr

/-- Embedding of `UiInnerInstructions`. -/
structure UiInnerInstructions where
  index : Nat
  instructions : List UiInstruction
deriving DecidableEq, Repr

/-- The fields of `RpcSimulateTransactionResult` read by
`parse_simulation_result` (the on-chain `TransactionError` is an opaque
token). -/
structure RpcSimulateTransactionResult where
  err : Option Nat
  logs : Option (List String)
  units_consumed : Option Nat
  inner_instructions : Option (List UiInnerInstructions)
deriving DecidableEq, Repr

/-- Embedding of `write_transactions/utils.rs::ParsedInstruction`. -/
structure ParsedInstruction where
  program : String
  program_id : String
  info : List (String × Nat)
deriving DecidableEq, Repr

/-- Embedding of `write_transactions/utils.rs::SimulationResult`. -/
structure SimulationResult where
  transaction_logs : List String
  units_consumed : Nat
  instructions : List ParsedInstruction
  error : Option Nat
deriving DecidableEq, Repr

/-- The per-instruction filter of `parse_simulation_result`: keep only fully
parsed instructions whose `parsed` JSON is an object with an object-valued
`info` field. -/
def extractParsed : UiInstruction → Option ParsedInstruction
  | .parsedFull program program_id (.jobject fields) =>
    match fields.lookup "info" with
    | some (.object info) => some { program, program_id, info }
    | _ => none
  | _ => none

/-- Embedding of `parse_simulation_result`: fail on each missing provider field, otherwise
flatten the parsed inner instructions; `units_consumed` is narrowed with
`as u32`. -/
def parse_simulation_result (simulation_result : RpcSimulateTransactionResult) :
    Except SimulationError SimulationResult :=
  match simulation_result.logs with
  | none => .error .NoLogsAvailable
  | some logs =>
    match simulation_result.units_consumed with
    | none => .error .NoUnitsConsumedAvailable
    | some units_consumed =>
      match simulation_result.inner_instructions with
      | none => .error .NoInnerInstructionsAvailable
      | some inner_instructions =>
        let parsed_instructions :=
          inner_instructions.foldr
            (fun ii acc => ii.instructions.filterMap extractParsed ++ acc) []
        .ok { transaction_logs := logs,
              units_consumed := units_consumed % 2 ^ 32,
              instructions := parsed_instructions,
              error := simulation_result.err }

/-- Classifier written from the SPEC's words (§4.2 decision order), for
comparison with the source classifiers: executable → Program; System-owned →
Wallet; SPL Token Account probe; SPL Mint probe; Metadata probe; Other. -/
def claimedClassify (a : RawAccount) : AccountType :=
  if a.executable then .program
  else if a.owner = system_program then .wallet
  else
    match splTokenUnpack a.data with
    | .ok t => .associatedToken t
    | .error _ =>
      match splMintUnpack a.data with
      | .ok m => .mint m
      | .error _ =>
        match metadataDeserialize a.data with
        | some md => .metadata md
        | none => .others

/-- Thirty-two zero bytes. -/
def zeros32 : List Nat := List.replicate 32 0

/-- A concrete Borsh metadata payload with NUL-padded display fields:
name `"AB\0\0"`, symbol `"S\0"`, uri `"u"`. -/
def mdPayload : List Nat :=
  [4] ++ zeros32 ++ zeros32 ++ [4, 0, 0, 0, 65, 66, 0, 0] ++
    [2, 0, 0, 0, 83, 0] ++ [1, 0, 0, 0, 117] ++ [0] ++ [1]

/-- A concrete wallet account (System-owned, no data). -/
def walletAccW : RawAccount :=
  { lamports := 2039280, data := [], owner := system_program,
    executable := false, rent_epoch := 0 }

/-- A concrete metadata account (owned by the metadata program). -/
def mdAccW : RawAccount :=
  { lamports := 1000, data := mdPayload, owner := metadata_program,
    executable := false, rent_epoch := 0 }

/-- The pubkey of all `1` bytes (base58 `4vJ9JU1bJJE96FWSJKvHsmmFADCg4gpZQff4P3bkLKi`). -/
def pk1W : Pubkey := List.replicate 32 1

/-- The pubkey of all `2` bytes (base58 `8qbHbw2BbbTHBW1sbeqakYXVKRQM8Ne7pLK7m6CVfeR`). -/
def pk2W : Pubkey := List.replicate 32 2

/-- An RPC state where only `pk1W` exists. -/
def rpcOneMissing : Rpc :=
  fun p => if p = pk1W then some walletAccW else none

/-- An RPC state where every lookup returns the metadata fixture. -/
def rpcConstMd : Rpc :=
  fun _ => some mdAccW

/-- The bonding-curve fixture of the spec: reserves
`(30_000_000_000_000, 30_000_000_000)`. -/
def curveStateW : BondingCurveAccount :=
  { unkown_value := 0, virtual_token_reserves := 30000000000000,
    virtual_sol_reserves := 30000000000, real_token_reserves := 0,
    real_sol_reserves := 0, total_token_supply := 0, complete := false }

/-- The Borsh serialization of `curveStateW`. -/
def curveDataW : List Nat :=
  [0, 0, 0, 0, 0, 0, 0, 0,
   0, 224, 87, 235, 72, 27, 0, 0,
   0, 172, 35, 252, 6, 0, 0, 0] ++ List.replicate 24 0 ++ [0]

/-- An RPC state where every lookup returns the bonding-curve fixture. -/
def rpcCurveW : Rpc :=
  fun _ => some { lamports := 0, data := curveDataW, owner := pumpfun_program,
                  executable := false, rent_epoch := 0 }

/-- The Pump.fun bonding-curve PDA of the all-zero mint (bump 254). -/
def bcPkW : Pubkey :=
  [7, 229, 253, 9, 70, 217, 117, 252, 223, 27, 178, 74, 77, 21, 24, 78,
   152, 166, 134, 15, 29, 219, 84, 28, 50, 108, 171, 210, 212, 156, 104, 140]

/-- A base58 keypair string decoding to 64 zero bytes (pubkey = all-zero key). -/
def kp58W : String :=
  "1111111111111111111111111111111111111111111111111111111111111111"

/-- The all-zero pubkey as an address string. -/
def zeroKeyAddr : String := "11111111111111111111111111111111"

/-- A packed SPL token account with the given mint, owner and amount
(state Initialized, no delegate/native/close authority). -/
def tokenAccData (mint owner : Pubkey) (amount : Nat) : List Nat :=
  mint ++ owner ++ leBytes 8 amount ++ ([0, 0, 0, 0] ++ zeros32) ++ [1] ++
    ([0, 0, 0, 0] ++ List.replicate 8 0) ++ leBytes 8 0 ++ ([0, 0, 0, 0] ++ zeros32)

/-- A packed SPL mint account with the given supply and decimals
(no authorities, flagged as set up). -/
def mintAccData (supply decimals : Nat) : List Nat :=
  ([0, 0, 0, 0] ++ zeros32) ++ leBytes 8 supply ++ [decimals] ++ [1] ++
    ([0, 0, 0, 0] ++ zeros32)

/-- Mint pubkey `M1` (all `3` bytes); its account is absent in `rpcC10`. -/
def pkM1 : Pubkey := List.replicate 32 3

/-- Mint pubkey `M2` (all `4` bytes). -/
def pkM2 : Pubkey := List.replicate 32 4

/-- Wallet owner pubkey (all `9` bytes). -/
def pkOwner9 : Pubkey := List.replicate 32 9

/-- RPC state for the mint-pairing scenario: two token accounts exist
(`pk1W` holding mint `M1`, `pk2W` holding mint `M2`), `M2`'s mint account
exists and decodes, `M1`'s is missing. -/
def rpcC10 : Rpc := fun p =>
  if p = pk1W then
    some { lamports := 2039280, data := tokenAccData pkM1 pkOwner9 111,
           owner := token_program, executable := false, rent_epoch := 0 }
  else if p = pk2W then
    some { lamports := 2039280, data := tokenAccData pkM2 pkOwner9 222,
           owner := token_program, executable := false, rent_epoch := 0 }
  else if p = pkM2 then
    some { lamports := 1461600, data := mintAccData 999 6,
           owner := token_program, executable := false, rent_epoch := 0 }
  else none

/-- The decoded form of `mdPayload` before trimming. -/
def mdDecodedW : MetadataAccount :=
  { key := 4, update_authority := zeros32, mint := zeros32,
    data := { name := [65, 66, 0, 0], symbol := [83, 0], uri := [117] },
    primary_sale_happened := false, is_mutable := true }

/-- The parsed view of `walletAccW` produced by the batch easy-account reader. -/
def easyW : EasySolanaAccount :=
  { pubkey := pk1W,
    sol_balance := ((2039280 : Nat) : Rat) / (LAMPORTS_PER_SOL : Rat),
    owner := system_program, executable := false, rent_epoch := 0,
    data := [], account_type := .wallet }

/-- A payer keypair (pubkey = 32 `1` bytes). -/
def kpPayerW : Keypair := List.replicate 64 1

/-- An auxiliary keypair distinct from the payer (pubkey = 32 `2` bytes). -/
def kpAuxW : Keypair := List.replicate 64 2

/-- The builder state after one `transfer_sol` from `kpAuxW`. -/
def bW : TransactionBuilder :=
  { payer_keypair := kpPayerW,
    instructions := [system_transfer (keypairPubkey kpAuxW) zeros32
      (castF64ToU64 ((1 : Rat) * (LAMPORTS_PER_SOL : Rat)))],
    signing_keypairs := [kpAuxW] }

/-- The bonding-curve price of `curveStateW` in the exact form computed by
`calculate_token_price` (value `0.000001`). -/
def priceW : Rat :=
  ((30000000000 : Nat) : Rat) / (LAMPORTS_PER_SOL : Rat) /
    (((30000000000000 : Nat) : Rat) / ((10 ^ PUMP_TOKEN_DECIMALS : Nat) : Rat))

/-- The transaction built by the bump constructor on the concrete fixture. -/
def bumpTxW : Transaction :=
  (construct_bump_pump_token_transaction rpcCurveW 5 kp58W zeroKeyAddr
    (1 / 50) 2000000 111111).toOption.getD ⟨none, [], 0, []⟩

/-- The head surviving `dropWhile (· == 0)` is nonzero. -/
theorem head?_dropWhile_zero_ne (l : List Nat) :
    (l.dropWhile (fun b => b == 0)).head? ≠ some 0 := by
  induction l with
  | nil => simp
  | cons b t ih =>
    by_cases hb : b = 0
    · subst hb
      simpa [List.dropWhile_cons] using ih
    · simp [List.dropWhile_cons, hb]

/-- Trimming trailing NULs leaves no trailing NUL. -/
theorem trimTrailingNul_getLast_ne (l : List Nat) :
    (trimTrailingNul l).getLast? ≠ some 0 := by
  unfold trimTrailingNul
  rw [List.getLast?_reverse]
  exact head?_dropWhile_zero_ne _

/-- C6: `addresses_to_pubkeys` (parse_many) keeps exactly the entries that
parse, in input order: an unparsable entry anywhere in the batch is dropped
without affecting the rest, a parsable entry contributes its pubkey in
position, and the empty batch yields the empty result — a parse failure never
fails the whole batch. -/
theorem addresses_to_pubkeys_valid_subsequence :
    (∀ xs ys bad, (pubkey_from_str bad).toOption = none →
      addresses_to_pubkeys (xs ++ bad :: ys) = addresses_to_pubkeys (xs ++ ys)) ∧
    (∀ xs ys v pk, (pubkey_from_str v).toOption = some pk →
      addresses_to_pubkeys (xs ++ v :: ys) =
        addresses_to_pubkeys xs ++ pk :: addresses_to_pubkeys ys) ∧
    addresses_to_pubkeys [] = [] := by
  refine ⟨?_, ?_, rfl⟩
  · intro xs ys bad h
    simp [addresses_to_pubkeys, List.filterMap_append, List.filterMap_cons, h]
  · intro xs ys v pk h
    simp [addresses_to_pubkeys, List.filterMap_append, List.filterMap_cons, h]

/-- Witness for C6 at a concrete mixed batch. -/
theorem addresses_to_pubkeys_valid_subsequence_witness :
    addresses_to_pubkeys [("not-an-address!"), zeroKeyAddr] = [zeros32] := by
  have h := addresses_to_pubkeys_valid_subsequence.1 [] [zeroKeyAddr]
    ("not-an-address!") (by decide)
  exact h.trans (by decide)

/-- C5: `calculate_token_price` fails with `BondingCurveError` exactly when a
virtual reserve is zero; otherwise it returns
`(virtual_sol/10^9) / (virtual_token/10^6)`, and on the fixture reserves
`(30_000_000_000_000, 30_000_000_000)` the price is `0.000001`. -/
theorem calculate_token_price_spec :
    (∀ c : BondingCurveAccount,
      (calculate_token_price c = .error .BondingCurveError ↔
        c.virtual_token_reserves = 0 ∨ c.virtual_sol_reserves = 0) ∧
      (c.virtual_token_reserves ≠ 0 → c.virtual_sol_reserves ≠ 0 →
        calculate_token_price c =
          .ok (((c.virtual_sol_reserves : Rat) / (LAMPORTS_PER_SOL : Rat)) /
               ((c.virtual_token_reserves : Rat) /
                ((10 ^ PUMP_TOKEN_DECIMALS : Nat) : Rat))))) ∧
    calculate_token_price curveStateW = .ok (1 / 1000000) := by
  constructor
  · intro c
    constructor
    · by_cases h : c.virtual_token_reserves = 0 ∨ c.virtual_sol_reserves = 0 <;>
        simp [calculate_token_price, h]
    · intro h1 h2
      simp [calculate_token_price, h1, h2]
  · have h : calculate_token_price curveStateW =
        .ok (((30000000000 : Nat) : Rat) / (LAMPORTS_PER_SOL : Rat) /
             (((30000000000000 : Nat) : Rat) / ((10 ^ PUMP_TOKEN_DECIMALS : Nat) : Rat))) := rfl
    rw [h, Except.ok.injEq]
    norm_num [LAMPORTS_PER_SOL, PUMP_TOKEN_DECIMALS]

/-- Witness for C5 at the fixture reserves. -/
theorem calculate_token_price_spec_witness :
    calculate_token_price curveStateW =
      .ok (((curveStateW.virtual_sol_reserves : Rat) / (LAMPORTS_PER_SOL : Rat)) /
           ((curveStateW.virtual_token_reserves : Rat) /
            ((10 ^ PUMP_TOKEN_DECIMALS : Nat) : Rat))) :=
  (calculate_token_price_spec.1 curveStateW).2 (by decide) (by decide)

/-- C3: every metadata account returned by the single-token path
`get_metadata_of_token` and by the batch path `get_metadata_of_tokens` has had
its NUL padding stripped: none of `name`, `symbol`, `uri` ends in a `\0` byte. -/
theorem metadata_trim_no_trailing_nul :
    (∀ (rpc : Rpc) (addr : String) (m : MetadataAccount),
      get_metadata_of_token rpc addr = .ok m →
      m.data.name.getLast? ≠ some 0 ∧ m.data.symbol.getLast? ≠ some 0 ∧
        m.data.uri.getLast? ≠ some 0) ∧
    (∀ (rpc : Rpc) (addrs : List String) (l : List MetadataAccount),
      get_metadata_of_tokens rpc addrs = .ok l →
      ∀ m ∈ l,
      m.data.name.getLast? ≠ some 0 ∧ m.data.symbol.getLast? ≠ some 0 ∧
        m.data.uri.getLast? ≠ some 0) := by
  have htrim : ∀ md : MetadataAccount,
      (trimMetadata md).data.name.getLast? ≠ some 0 ∧
      (trimMetadata md).data.symbol.getLast? ≠ some 0 ∧
      (trimMetadata md).data.uri.getLast? ≠ some 0 := by
    intro md
    exact ⟨trimTrailingNul_getLast_ne _, trimTrailingNul_getLast_ne _,
           trimTrailingNul_getLast_ne _⟩
  constructor
  · intro rpc addr m h
    unfold get_metadata_of_token get_metadata_of_token_pk at h
    split at h
    · exact absurd h (by simp)
    · split at h
      · exact absurd h (by simp)
      · split at h
        · exact absurd h (by simp)
        · split at h
          · exact absurd h (by simp)
          · rw [Except.ok.injEq] at h
            subst h
            exact htrim _
  · intro rpc addrs l h m hm
    unfold get_metadata_of_tokens get_metadata_of_tokens_pk at h
    rw [Except.ok.injEq] at h
    subst h
    rcases List.mem_filterMap.mp hm with ⟨o, _, ho⟩
    cases o with
    | none => simp at ho
    | some account =>
      cases hd : metadataDeserialize account.data with
      | none => simp [Option.bind, hd] at ho
      | some md =>
        simp [Option.bind, hd] at ho
        exact ho ▸ htrim _

set_option maxRecDepth 1000000 in
/-- Witness for C3: concrete decode-and-trim through `get_metadata_of_token`. -/
theorem metadata_trim_no_trailing_nul_witness :
    (trimMetadata mdDecodedW).data.name.getLast? ≠ some 0 ∧
    (trimMetadata mdDecodedW).data.symbol.getLast? ≠ some 0 ∧
    (trimMetadata mdDecodedW).data.uri.getLast? ≠ some 0 :=
  metadata_trim_no_trailing_nul.1 rpcConstMd zeroKeyAddr (trimMetadata mdDecodedW)
    (by rfl)

/-- Folding list-append over a list equals joining the mapped lists. -/
theorem foldr_append_eq_join_map {α β : Type} (f : α → List β) (l : List α) :
    l.foldr (fun a acc => f a ++ acc) [] = (l.map f).flatten := by
  induction l with
  | nil => rfl
  | cons a t ih => simp [List.foldr_cons, ih]

/-- C9 (amended): the simulation interpreter fails with `NoLogsAvailable` iff
logs are missing, with `NoUnitsConsumedAvailable` iff logs are present but
units are missing, and with `NoInnerInstructionsAvailable` iff only inner
instructions are missing — in no other case; when all three fields are
present it returns the log lines, the units consumed truncated to 32 bits
(`as u32`), the flattened parsed inner instructions, and the optional
on-chain error, never substituting defaults for a missing expected field. -/
theorem parse_simulation_result_spec :
    (∀ r, parse_simulation_result r = .error .NoLogsAvailable ↔ r.logs = none) ∧
    (∀ r, parse_simulation_result r = .error .NoUnitsConsumedAvailable ↔
      r.logs ≠ none ∧ r.units_consumed = none) ∧
    (∀ r, parse_simulation_result r = .error .NoInnerInstructionsAvailable ↔
      r.logs ≠ none ∧ r.units_consumed ≠ none ∧ r.inner_instructions = none) ∧
    (∀ r logs units inner, r.logs = some logs → r.units_consumed = some units →
      r.inner_instructions = some inner →
      parse_simulation_result r =
        .ok { transaction_logs := logs,
              units_consumed := units % 2 ^ 32,
              instructions :=
                (inner.map (fun ii => ii.instructions.filterMap extractParsed)).flatten,
              error := r.err }) := by
  refine ⟨?_, ?_, ?_, ?_⟩
  · rintro ⟨err, logs, units, inner⟩
    cases logs <;> cases units <;> cases inner <;>
      simp [parse_simulation_result]
  · rintro ⟨err, logs, units, inner⟩
    cases logs <;> cases units <;> cases inner <;>
      simp [parse_simulation_result]
  · rintro ⟨err, logs, units, inner⟩
    cases logs <;> cases units <;> cases inner <;>
      simp [parse_simulation_result]
  · rintro ⟨err, logs, units, inner⟩ logs2 units2 inner2 h1 h2 h3
    simp only at h1 h2 h3
    subst h1; subst h2; subst h3
    simp [parse_simulation_result, foldr_append_eq_join_map]

/-- Counterexample for C9 as stated: with all fields present and
`units_consumed = 2^32`, the interpreter reports `0` compute units, not the
units consumed. -/
theorem parse_simulation_result_truncation_counterexample :
    parse_simulation_result
      { err := none, logs := some [], units_consumed := some (2 ^ 32),
        inner_instructions := some [] } =
      .ok { transaction_logs := [], units_consumed := 0, instructions := [],
            error := none } ∧ (2 ^ 32 : Nat) ≠ 0 := by
  constructor
  · decide
  · decide

/-- Witness for C9's amended success case at a concrete response. -/
theorem parse_simulation_result_spec_witness :
    parse_simulation_result
      { err := none, logs := some [("log line")], units_consumed := some 7,
        inner_instructions := some [] } =
      .ok { transaction_logs := [("log line")], units_consumed := 7,
            instructions := [], error := none } :=
  parse_simulation_result_spec.2.2.2
    { err := none, logs := some [("log line")], units_consumed := some 7,
      inner_instructions := some [] } [("log line")] 7 [] rfl rfl rfl

/-- C7 (amended): `build()` signs with the fee payer followed by every
auxiliary keypair collected so far, in collection order and **without**
deduplication; `transfer_sol` collects the source keypair exactly when its
public key differs from the payer's. -/
theorem transaction_builder_signers :
    (∀ (b : TransactionBuilder) (bh : Nat) (tx : Transaction),
      b.build bh = .ok tx → tx.signers = b.payer_keypair :: b.signing_keypairs) ∧
    (∀ (b b2 : TransactionBuilder) (amount : Rat) (src : Keypair) (dest : String),
      b.transfer_sol amount src dest = .ok b2 →
      b2.signing_keypairs =
        if keypairPubkey src = keypairPubkey b.payer_keypair then
          b.signing_keypairs
        else b.signing_keypairs ++ [src]) := by
  constructor
  · intro b bh tx h
    unfold TransactionBuilder.build at h
    rw [Except.ok.injEq] at h
    subst h
    rfl
  · intro b b2 amount src dest h
    unfold TransactionBuilder.transfer_sol at h
    split at h
    · exact absurd h (by simp)
    · by_cases hk : keypairPubkey src = keypairPubkey b.payer_keypair
      · simp only [hk, ne_eq, not_true_eq_false, if_false, if_pos] at h ⊢
        rw [Except.ok.injEq] at h
        subst h
        rfl
      · rw [if_pos (by simpa using hk)] at h
        rw [Except.ok.injEq] at h
        subst h
        simp [hk]

/-- Counterexample for C7 as stated: collecting the same auxiliary keypair
through two `transfer_sol` calls makes `build` sign with that keypair twice —
the signer list is not deduplicated. -/
theorem transaction_builder_no_dedup_counterexample :
    ((((TransactionBuilder.new kpPayerW).transfer_sol 1 kpAuxW zeroKeyAddr).bind
        (fun b => b.transfer_sol 1 kpAuxW zeroKeyAddr)).bind
      (fun b => b.build 5)).map (fun tx => tx.signers.count kpAuxW) = .ok 2 ∧
    keypairPubkey kpAuxW ≠ keypairPubkey kpPayerW := by
  constructor
  · rfl
  · decide

/-- Witness for C7's amended collection rule at a concrete builder. -/
theorem transaction_builder_signers_witness :
    bW.signing_keypairs = [kpAuxW] := by
  have h := transaction_builder_signers.2 (TransactionBuilder.new kpPayerW) bW
    1 kpAuxW zeroKeyAddr (by rfl)
  rw [h]
  norm_num [keypairPubkey, kpAuxW, kpPayerW, TransactionBuilder.new, byteSlice]

/-- A successful SPL mint unpack forces an 82-byte payload. -/
theorem splMintUnpack_ok_length {d : List Nat} {m : SplMintAccount}
    (h : splMintUnpack d = .ok m) : d.length = 82 := by
  by_cases hl : d.length = 82
  · exact hl
  · simp [splMintUnpack, hl] at h

/-- A successful SPL token-account unpack forces a 165-byte payload. -/
theorem splTokenUnpack_ok_length {d : List Nat} {t : SplTokenAccount}
    (h : splTokenUnpack d = .ok t) : d.length = 165 := by
  by_cases hl : d.length = 165
  · exact hl
  · simp [splTokenUnpack, hl] at h

/-- C1 (amended): in `get_account`/`get_multiple_accounts` the probes run
mint **before** token account, but the classification is extensionally the
claimed one because the two probes require disjoint exact payload lengths
(82 vs 165), so no payload satisfies both; in
`get_easy_solana_account(s)` the token/mint probes run only under an
`owner == token_program` guard (token account first) and there is no
metadata step: any account owned by neither the system nor the token
program — metadata accounts included — classifies as Others. -/
theorem classification_order_amended :
    (∀ a : RawAccount, classifyAccountData a = claimedClassify a) ∧
    (∀ (d : List Nat) (t : SplTokenAccount) (m : SplMintAccount),
      splTokenUnpack d = .ok t → splMintUnpack d ≠ .ok m) ∧
    (∀ (a : RawAccount) (t : SplTokenAccount), a.executable = false →
      a.owner = token_program → splTokenUnpack a.data = .ok t →
      classifyEasyData a = .associatedTokenAccount (mkAtaDetails t)) ∧
    (∀ a : RawAccount, a.executable = false → a.owner ≠ system_program →
      a.owner ≠ token_program → classifyEasyData a = .others) := by
  have hdisj : ∀ (d : List Nat) (t : SplTokenAccount) (m : SplMintAccount),
      splTokenUnpack d = .ok t → splMintUnpack d ≠ .ok m := by
    intro d t m ht hm
    have h1 := splTokenUnpack_ok_length ht
    have h2 := splMintUnpack_ok_length hm
    omega
  refine ⟨?_, hdisj, ?_, ?_⟩
  · intro a
    unfold classifyAccountData claimedClassify
    by_cases he : a.executable
    · simp [he]
    · by_cases hw : a.owner = system_program
      · simp [he, hw]
      · simp only [he, hw, if_false]
        cases hm : splMintUnpack a.data with
        | ok m =>
          cases ht : splTokenUnpack a.data with
          | ok t => exact absurd hm (hdisj _ _ _ ht)
          | error e => rfl
        | error e =>
          cases ht : splTokenUnpack a.data with
          | ok t => rfl
          | error e2 => rfl
  · intro a t he hown ht
    unfold classifyEasyData
    have hw : a.owner ≠ system_program := by
      rw [hown]; decide
    simp [he, hw, hown, ht]
    decide
  · intro a he hw hown
    unfold classifyEasyData
    simp [he, hw, hown]

/-- Counterexample for C1 as stated: a non-executable account owned by the
metadata program whose payload deserializes as Metadata is classified
`Others` (not Metadata) by the easy-account reader cited by the claim. -/
theorem classification_metadata_counterexample :
    get_easy_solana_account rpcConstMd pk1W =
      .ok { pubkey := pk1W,
            sol_balance := ((1000 : Nat) : Rat) / (LAMPORTS_PER_SOL : Rat),
            owner := metadata_program, executable := false, rent_epoch := 0,
            data := mdPayload, account_type := .others } ∧
    (metadataDeserialize mdPayload).isSome = true ∧
    metadata_program ≠ system_program ∧ metadata_program ≠ token_program := by
  refine ⟨rfl, by decide, by decide, by decide⟩

/-- Witness for C1's amended claim at a concrete metadata-owned account. -/
theorem classification_order_amended_witness :
    classifyEasyData mdAccW = .others := by
  have h := classification_order_amended.2.2.2 mdAccW (by decide) (by decide) (by decide)
  exact h

/-- The batch easy-account parse keeps exactly the existing accounts. -/
theorem easyAccountsOf_length (rpc : Rpc) (pks : List Pubkey) :
    (easyAccountsOf rpc pks).length =
      (pks.filter (fun p => (rpc p).isSome)).length := by
  induction pks with
  | nil => rfl
  | cons p t ih =>
    cases hp : rpc p with
    | none =>
      simpa [easyAccountsOf, List.filterMap_cons, List.filter_cons, hp]
        using ih
    | some a =>
      simpa [easyAccountsOf, List.filterMap_cons, List.filter_cons, hp]
        using ih

/-- Merging one metadata record preserves the account count. -/
theorem mergeMetadataInto_length (md : MetadataAccount) :
    ∀ l : List EasySolanaAccount, (mergeMetadataInto md l).length = l.length := by
  intro l
  induction l with
  | nil => rfl
  | cons a t ih =>
    by_cases h : a.pubkey = md.mint
    · simp [mergeMetadataInto, h]
    · simp [mergeMetadataInto, h, ih]

/-- Folding the metadata merge preserves the account count. -/
theorem foldl_merge_length (mds : List MetadataAccount) :
    ∀ accs : List EasySolanaAccount,
      (mds.foldl (fun accs md => mergeMetadataInto md accs) accs).length =
        accs.length := by
  induction mds with
  | nil => intro accs; rfl
  | cons md t ih =>
    intro accs
    rw [List.foldl_cons, ih, mergeMetadataInto_length]

/-- The strict batch collector aborts whenever any entry is missing. -/
theorem collectAccounts_error_of_missing :
    ∀ l : List (Option RawAccount × Pubkey), (∃ pr ∈ l, pr.1 = none) →
      collectAccounts l = .error .AccountNotFound := by
  intro l
  induction l with
  | nil => rintro ⟨pr, hmem, _⟩; simp at hmem
  | cons x t ih =>
    rintro ⟨pr, hmem, hnone⟩
    cases x with
    | mk o pk =>
      cases o with
      | none => rfl
      | some a =>
        rcases List.mem_cons.mp hmem with heq | hmem2
        · subst heq; simp at hnone
        · show (collectAccounts t).map _ = _
          rw [ih ⟨pr, hmem2, hnone⟩]
          rfl

/-- Membership transfers from a key list into its fetched zip. -/
theorem mem_zip_of_mem (rpc : Rpc) :
    ∀ (pks : List Pubkey) (p : Pubkey), p ∈ pks →
      (rpc p, p) ∈ (pks.map rpc).zip pks := by
  intro pks
  induction pks with
  | nil => intro p h; simp at h
  | cons q t ih =>
    intro p h
    rcases List.mem_cons.mp h with heq | hmem
    · subst heq; simp [List.zip_cons_cons]
    · simp only [List.map_cons, List.zip_cons_cons]
      exact List.mem_cons_of_mem _ (ih p hmem)

/-- C2 (amended): the silent-drop asymmetry lives in the easy-account reader
only — `get_easy_solana_accounts` returns exactly one result per existing
account, dropping missing entries, while `get_multiple_accounts` aborts the
whole batch with `AccountNotFound` when any fetched entry is missing, and the
single fetch `get_account` on a nonexistent account fails with the RPC
client's for-user error (`RpcForUserError`), not with `AccountNotFound`. -/
theorem batch_drop_asymmetry :
    (∀ (rpc : Rpc) (pks : List Pubkey) (l : List EasySolanaAccount),
      get_easy_solana_accounts rpc pks = .ok l →
      l.length = (pks.filter (fun p => (rpc p).isSome)).length) ∧
    (∀ (rpc : Rpc) (addrs : List String),
      (∃ p ∈ addresses_to_pubkeys addrs, rpc p = none) →
      get_multiple_accounts rpc addrs = .error .AccountNotFound) ∧
    (∀ (rpc : Rpc) (addr : String) (pk : Pubkey),
      address_to_pubkey addr = .ok pk → rpc pk = none →
      get_account rpc addr =
        .error (.RpcForUserError (("AccountNotFound: pubkey=") ++ pubkeyToString pk))) := by
  refine ⟨?_, ?_, ?_⟩
  · intro rpc pks l h
    simp only [get_easy_solana_accounts] at h
    split at h
    · rw [Except.ok.injEq] at h
      subst h
      exact easyAccountsOf_length rpc pks
    · simp only [get_metadata_of_tokens_pk] at h
      rw [Except.ok.injEq] at h
      subst h
      rw [foldl_merge_length]
      exact easyAccountsOf_length rpc pks
  · rintro rpc addrs ⟨p, hp, hnone⟩
    unfold get_multiple_accounts
    apply collectAccounts_error_of_missing
    exact ⟨(rpc p, p), mem_zip_of_mem rpc _ p hp, hnone⟩
  · intro rpc addr pk hparse hnone
    unfold get_account
    rw [hparse]
    simp [hnone]

/-- Counterexample for C2 as stated: a batch of one existing and one missing
account makes `get_multiple_accounts` fail with `AccountNotFound` instead of
returning the one existing result. -/
theorem get_multiple_accounts_abort_counterexample :
    get_multiple_accounts rpcOneMissing
      [("4vJ9JU1bJJE96FWSJKvHsmmFADCg4gpZQff4P3bkLKi"),
       ("8qbHbw2BbbTHBW1sbeqakYXVKRQM8Ne7pLK7m6CVfeR")] =
      .error .AccountNotFound ∧
    rpcOneMissing pk1W ≠ none ∧ rpcOneMissing pk2W = none := by
  refine ⟨rfl, by decide, by decide⟩

/-- Witness for C2's amended claim: the easy batch reader drops the one
missing account and keeps the one existing account. -/
theorem batch_drop_asymmetry_witness :
    ([pk1W, pk2W].filter (fun p => (rpcOneMissing p).isSome)).length = 1 := by
  have h := batch_drop_asymmetry.1 rpcOneMissing [pk1W, pk2W] [easyW] (by rfl)
  simpa using h.symm

set_option maxRecDepth 1000000 in
/-- C10: at a batch of two decodable token accounts (mints `M1`, `M2`) where
`M1`'s mint account is missing, the positional zip pairs the first token
account with `M2`'s mint data: the single returned entry carries
`mint_pubkey = M1` but `mint_supply`/`mint_decimals`/`token_program` taken
from `M2`'s account — not from the mint whose address equals its
`mint_pubkey`. -/
theorem ata_mint_pairing_misaligned :
    get_multiple_associated_token_accounts rpcC10
      [("4vJ9JU1bJJE96FWSJKvHsmmFADCg4gpZQff4P3bkLKi"),
       ("8qbHbw2BbbTHBW1sbeqakYXVKRQM8Ne7pLK7m6CVfeR")] =
      .ok [{ pubkey := ("4vJ9JU1bJJE96FWSJKvHsmmFADCg4gpZQff4P3bkLKi"),
             owner_pubkey := ("cGfHiC6Kgg3FpFZvgwGcswsCRtp4aBP2fzuXRQPizuN"),
             mint_pubkey := ("CktRuQ2mttgRGkXJtyksdKHjUdc2C4TgDzyB98oEzy8"),
             mint_supply := 999, mint_decimals := 6, token_amount := 111,
             token_ui_amount := ((111 : Nat) : Rat) / ((10 ^ 6 : Nat) : Rat),
             mint_authority := none,
             token_program := ("TokenkegQfeZyiNwAJbNbGKPFXCWuBvf9Ss623VQ5DA") }] ∧
    rpcC10 pkM1 = none ∧
    pubkeyToString pkM1 = ("CktRuQ2mttgRGkXJtyksdKHjUdc2C4TgDzyB98oEzy8") ∧
    (rpcC10 pkM2).map RawAccount.data = some (mintAccData 999 6) := by
  exact ⟨rfl, by decide, by decide, by decide⟩

set_option maxRecDepth 1000000 in
/-- C4: `derive_associated_token_account_address` is a pure function —
identical inputs give identical outputs — and on the fixture triple
(wallet `ACTC9k…`, mint `ArDKW…`, standard token program) the canonical
program-derived-address search over the seeds (wallet, token_program, mint)
yields exactly `7geCZYWHtghvWj11sb7exvu4uMANfhvGvEvVRRZ8GmSd`. -/
theorem derive_ata_deterministic_and_fixture :
    (∀ (w m : String) (p : Pubkey),
      derive_associated_token_account_address w m p =
        derive_associated_token_account_address w m p) ∧
    derive_associated_token_account_address
      ("ACTC9k56rLB1Z6cUBKToptXrEXussVkiASJeh8p74Fa5")
      ("ArDKWeAhQj3LDSo2XcxTUb5j68ZzWg21Awq97fBppump") token_program =
      .ok ("7geCZYWHtghvWj11sb7exvu4uMANfhvGvEvVRRZ8GmSd") :=
  ⟨fun _ _ _ => rfl, by decide⟩

/-- The `FloorRing` floor on `Rat` is `Rat.floor`. -/
theorem int_floor_eq_rat_floor (q : Rat) : ⌊q⌋ = q.floor := rfl

/-- Rust `as u64` on a nonnegative in-range value is `⌊·⌋` as a `Nat`. -/
theorem castF64ToU64_eq_floor_toNat (q : Rat) (h0 : 0 ≤ q)
    (h1 : ⌊q⌋ < 2 ^ 64) : castF64ToU64 q = (⌊q⌋).toNat := by
  unfold castF64ToU64
  rw [← int_floor_eq_rat_floor]
  by_cases hq : q ≤ 0
  · have hq0 : q = 0 := le_antisymm hq h0
    subst hq0
    simp
  · rw [if_neg hq]
    have h2 : (⌊q⌋).toNat ≤ 2 ^ 64 - 1 := by omega
    exact min_eq_left h2

/-- Rust `f64::round` agrees with the mathematical round on nonnegative values. -/
theorem rustRound_nonneg {q : Rat} (h : 0 ≤ q) : rustRound q = round q :=
  if_pos h

/-- C8: when the bonding-curve fetch and the price computation succeed, the
constructed bump transaction consists of exactly
[set-compute-unit-limit, set-compute-unit-price, buy, sell]; both token
amounts are `round((max_sol_cost / price) * 0.8 * 10^6)` (80% of the
max-affordable quantity in 6-decimal raw units), the buy data is the fixed
8-byte discriminator followed by that amount and `⌊max_sol_cost·10^9⌋`
lamports as little-endian u64, and the sell data carries minimum output 0. -/
theorem bump_instruction_sequence
    (rpc : Rpc) (blockhash : Nat) (kp58 token_address : String)
    (max_sol_cost : Rat) (compute_limit compute_units : Nat)
    (tx : Transaction) (bcPk : Pubkey) (state : BondingCurveAccount) (price : Rat)
    (hbc : get_bonding_curve_account rpc token_address = some (bcPk, state))
    (hprice : calculate_token_price state = .ok price)
    (htx : construct_bump_pump_token_transaction rpc blockhash kp58 token_address
      max_sol_cost compute_limit compute_units = .ok tx)
    (hX : 0 ≤ max_sol_cost / price * (4 / 5 : Rat) * ((10 ^ PUMP_TOKEN_DECIMALS : Nat) : Rat))
    (hXr : round (max_sol_cost / price * (4 / 5 : Rat) *
      ((10 ^ PUMP_TOKEN_DECIMALS : Nat) : Rat)) < 2 ^ 64)
    (hm0 : 0 ≤ max_sol_cost)
    (hmr : ⌊max_sol_cost * (LAMPORTS_PER_SOL : Rat)⌋ < 2 ^ 64) :
    tx.instructions.map Instruction.program_id =
      [compute_budget_program, compute_budget_program,
       pumpfun_program, pumpfun_program] ∧
    tx.instructions.map Instruction.data =
      [2 :: leBytes 4 (compute_limit % 2 ^ 32),
       3 :: leBytes 8 (compute_units % 2 ^ 64),
       buy_instruction_data ++
         leBytes 8 (round (max_sol_cost / price * (4 / 5 : Rat) *
           ((10 ^ PUMP_TOKEN_DECIMALS : Nat) : Rat))).toNat ++
         leBytes 8 (⌊max_sol_cost * (LAMPORTS_PER_SOL : Rat)⌋).toNat,
       sell_instruction_data ++
         leBytes 8 (round (max_sol_cost / price * (4 / 5 : Rat) *
           ((10 ^ PUMP_TOKEN_DECIMALS : Nat) : Rat))).toNat ++
         leBytes 8 0] := by
  have hR0 : (0 : Int) ≤ round (max_sol_cost / price * (4 / 5 : Rat) *
      ((10 ^ PUMP_TOKEN_DECIMALS : Nat) : Rat)) := by
    rw [round_eq]
    apply Int.floor_nonneg.mpr
    have : (0 : Rat) ≤ 1 / 2 := by norm_num
    linarith
  have hamt : castF64ToU64 ((rustRound (max_sol_cost / price * (4 / 5 : Rat) *
      ((10 ^ PUMP_TOKEN_DECIMALS : Nat) : Rat)) : Int) : Rat) =
      (round (max_sol_cost / price * (4 / 5 : Rat) *
        ((10 ^ PUMP_TOKEN_DECIMALS : Nat) : Rat))).toNat := by
    rw [rustRound_nonneg hX]
    rw [castF64ToU64_eq_floor_toNat _ (by exact_mod_cast hR0)
      (by rw [Int.floor_intCast]; exact hXr)]
    rw [Int.floor_intCast]
  have hlam : castF64ToU64 (max_sol_cost * (LAMPORTS_PER_SOL : Rat)) =
      (⌊max_sol_cost * (LAMPORTS_PER_SOL : Rat)⌋).toNat := by
    apply castF64ToU64_eq_floor_toNat
    · apply mul_nonneg hm0
      exact_mod_cast Nat.zero_le LAMPORTS_PER_SOL
    · exact hmr
  unfold construct_bump_pump_token_transaction at htx
  rw [hbc] at htx
  cases hta : address_to_pubkey token_address with
  | error e => rw [hta] at htx; simp [Except.mapError, Except.bind, Bind.bind] at htx
  | ok tok =>
    rw [hta] at htx
    simp only [Except.mapError, Except.bind, Bind.bind] at htx
    cases hd1 : derive_associated_token_account_address
        (pubkeyToString (keypairPubkey (keypair_from_base58 kp58)))
        (pubkeyToString tok) token_program with
    | error e => rw [hd1] at htx; simp at htx
    | ok ua =>
      rw [hd1] at htx
      simp only at htx
      cases hp1 : address_to_pubkey ua with
      | error e => rw [hp1] at htx; simp at htx
      | ok uapk =>
        rw [hp1] at htx
        simp only at htx
        cases hd2 : derive_associated_token_account_address
            (pubkeyToString bcPk) (pubkeyToString tok) token_program with
        | error e => rw [hd2] at htx; simp at htx
        | ok ba =>
          rw [hd2] at htx
          simp only at htx
          cases hp2 : address_to_pubkey ba with
          | error e => rw [hp2] at htx; simp at htx
          | ok bapk =>
            rw [hp2] at htx
            simp only at htx
            rw [hprice] at htx
            simp only [Except.ok.injEq] at htx
            subst htx
            refine ⟨rfl, ?_⟩
            simp only [Transaction.sign, Transaction.new_with_payer,
              List.map_cons, List.map_nil]
            rw [hamt, hlam]
            simp [set_compute_unit_limit, set_compute_unit_price]

set_option maxRecDepth 1000000 in
/-- Witness for C8 on the concrete fixture: price `0.000001`, max cost
`0.02` SOL, so the bought-and-sold amount is `16_000_000_000` raw units and
the buy cap is `20_000_000` lamports. -/
theorem bump_instruction_sequence_witness :
    bumpTxW.instructions.map Instruction.program_id =
      [compute_budget_program, compute_budget_program,
       pumpfun_program, pumpfun_program] ∧
    bumpTxW.instructions.map Instruction.data =
      [2 :: leBytes 4 2000000, 3 :: leBytes 8 111111,
       buy_instruction_data ++ leBytes 8 16000000000 ++ leBytes 8 20000000,
       sell_instruction_data ++ leBytes 8 16000000000 ++ leBytes 8 0] := by
  have hXval : (1 / 50 : Rat) / priceW * (4 / 5 : Rat) *
      ((10 ^ PUMP_TOKEN_DECIMALS : Nat) : Rat) = ((16000000000 : Nat) : Rat) := by
    norm_num [priceW, LAMPORTS_PER_SOL, PUMP_TOKEN_DECIMALS]
  have hLval : (1 / 50 : Rat) * (LAMPORTS_PER_SOL : Rat) = ((20000000 : Nat) : Rat) := by
    norm_num [LAMPORTS_PER_SOL]
  have h := bump_instruction_sequence rpcCurveW 5 kp58W zeroKeyAddr (1 / 50)
    2000000 111111 bumpTxW bcPkW curveStateW priceW
    (by rfl) (by rfl) (by rfl)
    (by rw [hXval]; exact_mod_cast Nat.zero_le _)
    (by rw [hXval, round_natCast]; norm_num)
    (by norm_num)
    (by rw [hLval, Int.floor_natCast]; norm_num)
  rw [hXval, round_natCast, Int.toNat_natCast, hLval, Int.floor_natCast,
    Int.toNat_natCast] at h
  exact h
